import Mathlib

/-!
Verification development for the legal-intake multi-agent orchestration engine.

The Python source (a Flask demo driving eight "agent" objects around a shared
in-memory session dictionary) is shallowly embedded here:

* Python runtime values that flow through dynamically-typed positions
  (everything produced by `json.loads`, and the `None`-or-dict session fields)
  are modelled by the inductive `Val`; dictionary operations (`dict.get`,
  `[]`-indexing, truthiness, `==`, iteration, `str.join`, `str.lower`)
  are modelled by the `py*` helpers below, each raising the same exception
  class the CPython operation raises, via `Except PyErr`.
* The external text-generation collaborator (`BaseAgent.call_claude`) is an
  oracle `Env.gen : Nat -> String` consumed in call order; `call_claude`
  catches API exceptions and returns an error *string*, so a plain `String`
  codomain is faithful.  `json.loads` is the Python standard library, not
  repository code, so it is modelled as a parameter `Env.loads : String ->
  Option Val` (`none` = `json.JSONDecodeError`); concrete witnesses
  instantiate it with realistic finite tables.
* Mutation of the orchestrator singleton is state passing in the monad `M`,
  which keeps the state accumulated up to the point where an exception is
  raised, exactly like CPython exception propagation through mutating code.
-/

set_option autoImplicit false

namespace LegalIntake

/-- A Python runtime value, as needed by the dynamically-typed positions of
the source (JSON payloads, `None`-able session fields, result dicts). -/
inductive Val where
  | vNull
  | vBool (b : Bool)
  | vInt (n : Int)
  | vStr (s : String)
  | vList (xs : List Val)
  | vDict (fields : List (String × Val))
deriving Inhabited

/-- The Python exception classes raised by the operations the source uses. -/
inductive PyErr where
  | attributeError
  | typeError
  | keyError
  | valueError
deriving DecidableEq, Repr

/-- `l[k] = v` for an insertion-ordered dict represented as an association
list: replace in place if the key is present, append otherwise (CPython
dict-assignment semantics). -/
def setKey {α : Type} (k : String) (v : α) : List (String × α) → List (String × α)
  | [] => [(k, v)]
  | (k', v') :: rest => if k' = k then (k, v) :: rest else (k', v') :: setKey k v rest

/-- First binding of `k`, if any (CPython dicts hold each key once, so the
first binding is the binding). -/
def getKey {α : Type} (k : String) : List (String × α) → Option α
  | [] => none
  | (k', v') :: rest => if k' = k then some v' else getKey k rest

@[simp] theorem getKey_setKey_same {α : Type} (k : String) (v : α)
    (l : List (String × α)) : getKey k (setKey k v l) = some v := by
  induction l with
  | nil => simp [setKey, getKey]
  | cons hd tl ih =>
    obtain ⟨k', v'⟩ := hd
    by_cases h : k' = k <;> simp [setKey, getKey, h, ih]

@[simp] theorem getKey_setKey_ne {α : Type} (k k₂ : String) (v : α)
    (l : List (String × α)) (h : k₂ ≠ k) :
    getKey k₂ (setKey k v l) = getKey k₂ l := by
  have hne : ¬k = k₂ := fun hh => h hh.symm
  induction l with
  | nil => simp [setKey, getKey, hne]
  | cons hd tl ih =>
    obtain ⟨k', v'⟩ := hd
    by_cases hk : k' = k
    · subst hk
      simp [setKey, getKey, hne]
    · simp only [setKey, if_neg hk, getKey]
      by_cases hk2 : k' = k₂ <;> simp [hk2, ih]

/-- Substring test `needle in hay` on character lists (Python `in` for `str`).
The empty needle matches everywhere, as in Python. -/
def containsAux (needle : List Char) : List Char → Bool
  | [] => needle.isEmpty
  | c :: rest => needle.isPrefixOf (c :: rest) || containsAux needle rest

/-- Python `needle in hay` for strings. -/
def strContains (hay needle : String) : Bool :=
  containsAux needle.data hay.data

/-- Python `str.lower()`.  (ASCII case mapping; every keyword the source
compares case-insensitively is ASCII.) -/
def sLower (s : String) : String := String.mk (s.data.map Char.toLower)

/-- Python `str.upper()`. -/
def sUpper (s : String) : String := String.mk (s.data.map Char.toUpper)

/-- Python `str.strip()` with no argument: whitespace from both ends. -/
def sTrim (s : String) : String :=
  String.mk (((s.data.dropWhile Char.isWhitespace).reverse.dropWhile
    Char.isWhitespace).reverse)

/-- Worker for `sSplitOn`: scan left to right, emitting the accumulated
piece at each (non-overlapping) separator occurrence; `skip` counts
separator characters still to be consumed after a match. -/
def splitAux (sep : List Char) : Nat → List Char → List Char → List (List Char)
  | _, [], acc => [acc.reverse]
  | Nat.succ k, _ :: rest, acc => splitAux sep k rest acc
  | 0, c :: rest, acc =>
    if sep.isPrefixOf (c :: rest) then
      acc.reverse :: splitAux sep (sep.length - 1) rest []
    else splitAux sep 0 rest (c :: acc)

/-- Python `s.split(sep)` for a non-empty separator (every separator in the
source is a non-empty literal; `split('')` raising `ValueError` is
unreachable). -/
def sSplitOn (s sep : String) : List String :=
  if sep.data.isEmpty then [s]
  else (splitAux sep.data 0 s.data []).map String.mk

/-- Decimal digits to a number, `none` on empty or non-digit input
(the digit parsing inside `strptime`). -/
def digitsToNat? (cs : List Char) : Option Nat :=
  if cs.isEmpty then none
  else cs.foldl (fun acc c =>
    acc.bind fun n => if c.isDigit then some (n * 10 + (c.toNat - 48)) else none)
    (some 0)

theorem isPrefixOf_append {l₁ l₂ l₃ : List Char} (h : l₁.isPrefixOf l₂) :
    l₁.isPrefixOf (l₂ ++ l₃) := by
  induction l₁ generalizing l₂ with
  | nil => simp [List.isPrefixOf]
  | cons c cs ih =>
    cases l₂ with
    | nil => simp [List.isPrefixOf] at h
    | cons d ds =>
      simp only [List.isPrefixOf, List.cons_append, Bool.and_eq_true, beq_iff_eq] at h ⊢
      exact ⟨h.1, ih h.2⟩

theorem containsAux_append_left {needle a b : List Char}
    (h : containsAux needle a = true) : containsAux needle (a ++ b) = true := by
  induction a with
  | nil =>
    simp only [containsAux, List.isEmpty_iff] at h
    subst h
    cases b <;> simp [containsAux, List.isPrefixOf]
  | cons c rest ih =>
    simp only [containsAux, Bool.or_eq_true] at h ⊢
    rcases h with h | h
    · exact Or.inl (@isPrefixOf_append _ _ b h)
    · exact Or.inr (ih h)

theorem containsAux_append_right {needle a b : List Char}
    (h : containsAux needle b = true) : containsAux needle (a ++ b) = true := by
  induction a with
  | nil => simpa using h
  | cons c rest ih =>
    simp only [List.cons_append, containsAux, Bool.or_eq_true]
    exact Or.inr ih

theorem strContains_append_left {a b needle : String}
    (h : strContains a needle = true) : strContains (a ++ b) needle = true := by
  simpa [strContains] using @containsAux_append_left _ _ b.data h

theorem strContains_append_right {a b needle : String}
    (h : strContains b needle = true) : strContains (a ++ b) needle = true := by
  simpa [strContains] using @containsAux_append_right _ a.data _ h

/- Python `==`.  CPython compares `bool` and `int` numerically; values of
other distinct types compare unequal.  (Dict `==` in CPython is
order-insensitive; the source never compares two dicts, so the
order-sensitive clause below is never exercised.) -/
mutual

def pyEq : Val → Val → Bool
  | .vNull, .vNull => true
  | .vBool a, .vBool b => a == b
  | .vBool a, .vInt n => (if a then (1 : Int) else 0) == n
  | .vInt n, .vBool a => n == (if a then (1 : Int) else 0)
  | .vInt a, .vInt b => a == b
  | .vStr a, .vStr b => a == b
  | .vList a, .vList b => pyEqList a b
  | .vDict a, .vDict b => pyEqDict a b
  | _, _ => false

def pyEqList : List Val → List Val → Bool
  | [], [] => true
  | x :: xs, y :: ys => pyEq x y && pyEqList xs ys
  | _, _ => false

def pyEqDict : List (String × Val) → List (String × Val) → Bool
  | [], [] => true
  | (k, v) :: xs, (k', v') :: ys => k == k' && pyEq v v' && pyEqDict xs ys
  | _, _ => false

end

/- Python `str(v)` as interpolated into the source's f-strings.  `str` never
raises on these values; representation details of containers (quoting, comma
placement) are irrelevant to every claim and follow the obvious recursion. -/
mutual

def pyStr : Val → String
  | .vNull => "None"
  | .vBool b => if b then "True" else "False"
  | .vInt n => toString n
  | .vStr s => s
  | .vList xs => "[" ++ pyStrList xs ++ "]"
  | .vDict fs => "\x7b" ++ pyStrDict fs ++ "\x7d"

def pyStrList : List Val → String
  | [] => ""
  | [x] => pyStr x
  | x :: xs => pyStr x ++ ", " ++ pyStrList xs

def pyStrDict : List (String × Val) → String
  | [] => ""
  | [(k, v)] => k ++ ": " ++ pyStr v
  | (k, v) :: xs => k ++ ": " ++ pyStr v ++ ", " ++ pyStrDict xs

end

/-- Python truthiness (`bool(v)`). -/
def pyTruthy : Val → Bool
  | .vNull => false
  | .vBool b => b
  | .vInt n => n != 0
  | .vStr s => !s.isEmpty
  | .vList xs => !xs.isEmpty
  | .vDict fs => !fs.isEmpty

/-- Python `v.get(k)` — defined on dicts only (one-argument form returns
`None` for a missing key); any other receiver raises `AttributeError`,
including `None` (the crash at the heart of the `continue_session` bug). -/
def pyGet (v : Val) (k : String) : Except PyErr Val :=
  match v with
  | .vDict fs => .ok ((getKey k fs).getD .vNull)
  | _ => .error .attributeError

/-- Python `v.get(k, default)`. -/
def pyGetD (v : Val) (k : String) (default : Val) : Except PyErr Val :=
  match v with
  | .vDict fs => .ok ((getKey k fs).getD default)
  | _ => .error .attributeError

/-- Python `v[k]` for a string key (raises `KeyError` when missing,
`TypeError` on a non-dict receiver; the source only indexes literal dicts
whose keys are present). -/
def dictIndex (v : Val) (k : String) : Except PyErr Val :=
  match v with
  | .vDict fs => match getKey k fs with
    | some x => .ok x
    | none => .error .keyError
  | _ => .error .typeError

/-- Python `v.lower()` — strings only. -/
def pyLower (v : Val) : Except PyErr String :=
  match v with
  | .vStr s => .ok (sLower s)
  | _ => .error .attributeError

/-- Python iteration `for x in v`: lists yield elements, strings yield
one-character strings, dicts yield their keys; other values raise
`TypeError`. -/
def pyIter (v : Val) : Except PyErr (List Val) :=
  match v with
  | .vList xs => .ok xs
  | .vStr s => .ok (s.data.map fun c => .vStr (String.mk [c]))
  | .vDict fs => .ok (fs.map fun kv => .vStr kv.1)
  | _ => .error .typeError

/-- `sep.join(strs)` once every member is known to be a string. -/
def joinStrings (sep : String) : List String → String
  | [] => ""
  | [s] => s
  | s :: rest => s ++ sep ++ joinStrings sep rest

/-- Python `sep.join(v)`: iterates `v` and raises `TypeError` unless every
element is a string. -/
def pyJoin (sep : String) (v : Val) : Except PyErr String := do
  let items ← pyIter v
  let strs ← items.mapM fun it =>
    match it with
    | .vStr s => Except.ok s
    | _ => Except.error PyErr.typeError
  return joinStrings sep strs

/-- Left-aligned padding, Python `f"{s:<w>}"` for a `str` value. -/
def padRight (s : String) (w : Nat) : String :=
  s ++ String.mk (List.replicate (w - s.length) ' ')

/-- Right-aligned padding, Python `f"{n:<w>}"` for an `int` value. -/
def padLeftNat (n : Nat) (w : Nat) : String :=
  let s := toString n
  String.mk (List.replicate (w - s.length) ' ') ++ s

/-- Python `format(v, str(w))` as used by the summary box f-strings: strings
are left-aligned, ints right-aligned, any other value raises `TypeError`
(`object.__format__` rejects a non-empty format spec). -/
def pyFormatW (v : Val) (w : Nat) : Except PyErr String :=
  match v with
  | .vStr s => .ok (padRight s w)
  | .vInt n =>
    if n < 0 then .ok (toString n) else .ok (padLeftNat n.toNat w)
  | _ => .error .typeError

/-- Python `v[:n]` as used on values read out of parsed JSON: slices strings
and lists, raises `TypeError` otherwise. -/
def pySliceTo (v : Val) (n : Nat) : Except PyErr Val :=
  match v with
  | .vStr s => .ok (.vStr (String.mk (s.data.take n)))
  | .vList xs => .ok (.vList (xs.take n))
  | _ => .error .typeError

/-- Optional-value lookup on a dict-shaped `Val`, for theorem statements. -/
def vGet? (v : Val) (k : String) : Option Val :=
  match v with
  | .vDict fs => getKey k fs
  | _ => none

/-! ## Data model

`Session`, the `IntakeAgent`'s private per-conversation history, the
`SchedulerAgent`'s simulated slot table and the generation-call counter make
up the mutable state `Orch` of the orchestrator process.  Conversation
entries are always built by repository code as `{'role': ..., 'content':
...}` dicts of two strings, so they are typed as `Msg`; the fields that hold
`None` or parsed JSON stay `Val`. -/

/-- One `{'role': ..., 'content': ...}` conversation entry. -/
structure Msg where
  role : String
  content : String
deriving DecidableEq, Repr

/-- One entry of `FollowupAgent.generate_sequence`'s result. -/
structure SeqEntry where
  stage : Nat
  delay_hours : Nat
  channel : String
deriving DecidableEq, Repr

/-- One simulated availability slot of the `SchedulerAgent`. -/
structure Slot where
  date : String
  time : String
  available : Bool
  attorney : String
deriving DecidableEq, Repr

/-- One session record, mirroring the dict built in
`LegalAgentOrchestrator.start_session`.  `follow_up_sequence` is `Option`
because the Python dict only acquires that key during the pipeline. -/
structure Session where
  started_at : String
  language : String
  status : String
  conversation : List Msg
  client_info : List (String × Val)
  lead_score : Val
  research : Val
  documents_requested : Val
  documents_received : List Val
  appointments : List Val
  follow_ups : List Val
  handoff : Val
  follow_up_sequence : Option (List SeqEntry)
  agents_used : List String

/-- The orchestrator process state: the session store, the `IntakeAgent`'s
private `self.conversations`, the `SchedulerAgent`'s `self.available_slots`
and how many generation calls have been made so far. -/
structure Orch where
  sessions : List (String × Session)
  intakeConvs : List (String × List Msg)
  schedSlots : List Slot
  genCount : Nat

/-- The external world: the text-generation collaborator (indexed by call
order — `call_claude` catches API errors and returns an error string, so the
codomain is just `String`) and `json.loads` (`none` = `JSONDecodeError`),
plus the wall clock read by `datetime.now().isoformat()`. -/
structure Env where
  gen : Nat → String
  loads : String → Option Val
  now : String

/-- The effect monad of the embedding: state passing plus Python exception
propagation.  On `.error` the state accumulated so far is kept, exactly as
mutations performed before a CPython exception persist. -/
def M (α : Type) : Type := Orch → Except PyErr α × Orch

def M.pure {α : Type} (a : α) : M α := fun s => (.ok a, s)

def M.bind {α β : Type} (x : M α) (f : α → M β) : M β := fun s =>
  match x s with
  | (.ok a, s') => f a s'
  | (.error e, s') => (.error e, s')

instance : Monad M where
  pure := M.pure
  bind := M.bind

/-- Lift a pure Python-level computation (one that can raise but does not
touch state) into `M`. -/
def M.lift {α : Type} (x : Except PyErr α) : M α := fun s => (x, s)

/-- Read the current state. -/
def M.get : M Orch := fun s => (.ok s, s)

/-- Replace the current state. -/
def M.set (s : Orch) : M Unit := fun _ => (.ok (), s)

/-- `BaseAgent.call_claude`: consume the next generation-oracle output.  The
prompt argument is accepted (so call sites construct it exactly as the
source does, including constructions that can raise) but the collaborator is
free-form, so the reply depends only on the call index. -/
def callClaude (env : Env) (_prompt : String) : M String := fun s =>
  (.ok (env.gen s.genCount), { s with genCount := s.genCount + 1 })

/-- Mutate one stored session in place (Python mutates the dict aliased into
`self.sessions`; the key is already known to be present at every use). -/
def modifySession (sessionId : String) (f : Session → Session) : M Unit := fun s =>
  (.ok (), { s with sessions :=
    (match getKey sessionId s.sessions with
     | some sess => setKey sessionId (f sess) s.sessions
     | none => s.sessions) })

/-- Read one stored session (`self.sessions[session_id]`; raises `KeyError`
when absent, which is unreachable after the membership checks the source
performs). -/
def readSession (sessionId : String) : M Session := fun s =>
  match getKey sessionId s.sessions with
  | some sess => (.ok sess, s)
  | none => (.error .keyError, s)

/-! ## HandoffAgent -/

/-- `HandoffAgent.immediate_escalation_triggers`, in source order (the scan
below returns at the first match, so the order is part of the contract). -/
def immediateEscalationTriggers : List String :=
  ["currently in danger", "being threatened", "suicidal", "emergency",
   "arrested", "in custody", "child in danger", "domestic violence",
   "active crime"]

/-- The trigger subset flagged `call_911` in `_check_immediate_escalation`. -/
def call911Triggers : List String :=
  ["currently in danger", "child in danger", "domestic violence", "active crime"]

/-- The `all_text` accumulator of `_check_immediate_escalation`: the
lower-cased current message followed by every prior USER-role message,
lower-cased and space-separated.  Assistant turns are not scanned. -/
def escalationText (currentMessage : String) (conversation : List Msg) : String :=
  conversation.foldl
    (fun acc m => if m.role = "user" then acc ++ " " ++ sLower m.content else acc)
    (sLower currentMessage)

/-- The decision dict `_check_immediate_escalation` returns on a hit. -/
def immediateDecision (trigger : String) : Val :=
  .vDict [
    ("escalation_needed", .vBool true),
    ("escalation_type", .vStr "immediate"),
    ("reason", .vStr ("Detected: " ++ trigger)),
    ("route_to", .vDict [
      ("role", .vStr "intake_coordinator"),
      ("name", .vStr "On-Duty Staff"),
      ("reason", .vStr "Immediate human attention required")]),
    ("client_message", .vStr "I understand this is a serious situation. Let me connect you with someone who can help right away. Please stay on the line."),
    ("internal_notes", .vStr ("URGENT: Client mentioned \"" ++ trigger ++ "\". Immediate human contact required.")),
    ("urgency", .vStr "immediate"),
    ("call_911", .vBool (call911Triggers.contains trigger))]

/-- `HandoffAgent._check_immediate_escalation`. -/
def checkImmediateEscalation (currentMessage : String) (conversation : List Msg) : Val :=
  let allText := escalationText currentMessage conversation
  match immediateEscalationTriggers.find? (fun t => strContains allText t) with
  | some t => immediateDecision t
  | none => .vDict [("escalation_needed", .vBool false)]

/-- `HandoffAgent.attorneys`, the static roster. -/
def attorneys : List (String × Val) :=
  [("senior_partner", .vDict [
     ("name", .vStr "Senior Partner"),
     ("specialties", .vList [.vStr "commercial_trucking", .vStr "wrongful_death", .vStr "catastrophic_injury"]),
     ("min_case_value", .vStr "high"),
     ("availability", .vStr "by_appointment")]),
   ("pi_associate_1", .vDict [
     ("name", .vStr "PI Associate"),
     ("specialties", .vList [.vStr "auto_accident", .vStr "slip_fall", .vStr "general_pi"]),
     ("min_case_value", .vStr "any"),
     ("availability", .vStr "standard_hours")]),
   ("intake_coordinator", .vDict [
     ("name", .vStr "Intake Coordinator"),
     ("specialties", .vList [.vStr "all"]),
     ("role", .vStr "initial_screening"),
     ("availability", .vStr "business_hours")])]

/-- `self.attorneys[k]['name']`. -/
def attorneyName (k : String) : Except PyErr Val := do
  let a ← dictIndex (.vDict attorneys) k
  dictIndex a "name"

/-- The priority-indicator list of `_determine_routing`, in source order. -/
def priorityIndicators : List String :=
  ["commercial vehicle", "trucking", "semi", "18-wheeler",
   "wrongful death", "death", "fatality",
   "catastrophic", "paralysis", "brain injury", "amputation",
   "medical malpractice", "surgical error",
   "minor", "child", "children",
   "government", "city", "state", "federal",
   "media", "news", "high profile"]

/-- `HandoffAgent._determine_routing`.  Note that `lead_score` arrives as a
raw Python value: with a fresh session it is `None`, and the very first
read, `lead_score.get('rating', 'WARM')`, raises `AttributeError`. -/
def determineRouting (lead_score : Val) (_conversation : List Msg)
    (_client_info : List (String × Val)) : Except PyErr Val := do
  let rating ← pyGetD lead_score "rating" (.vStr "WARM")
  let caseTypeV ← pyGetD lead_score "case_type" (.vStr "")
  let case_type ← pyLower caseTypeV
  let estimated_value ← pyGetD lead_score "estimated_value" (.vStr "unknown")
  let kfV ← pyGetD lead_score "key_factors" (.vList [])
  let kfItems ← pyIter kfV
  let key_factors ← kfItems.mapM pyLower
  let is_priority := priorityIndicators.any fun ind =>
    strContains case_type ind || key_factors.any fun f => strContains f ind
  if pyEq rating (.vStr "HOT") && (is_priority || pyEq estimated_value (.vStr "high")) then do
    let nm ← attorneyName "senior_partner"
    return .vDict [
      ("escalation_needed", .vBool true),
      ("escalation_type", .vStr "priority"),
      ("reason", .vStr ("High-value " ++ case_type ++ " - requires senior review")),
      ("route_to", .vDict [
        ("role", .vStr "senior_partner"),
        ("name", nm),
        ("reason", .vStr "Case complexity and potential value warrant senior attorney review")]),
      ("client_message", .vStr "Based on what you\x27ve shared, I\x27d like to connect you with one of our senior attorneys who specializes in cases like yours. They\x27ll reach out within a few hours."),
      ("internal_notes", .vStr ("HOT lead, high-value case. Rating: " ++ pyStr rating ++ ", Type: " ++ case_type ++ ". Recommend priority callback.")),
      ("urgency", .vStr "same_day")]
  else if pyEq rating (.vStr "HOT") then do
    let nm ← attorneyName "pi_associate_1"
    return .vDict [
      ("escalation_needed", .vBool true),
      ("escalation_type", .vStr "standard"),
      ("reason", .vStr "HOT lead - prompt attorney callback needed"),
      ("route_to", .vDict [
        ("role", .vStr "pi_associate"),
        ("name", nm),
        ("reason", .vStr "Good case for associate handling, quick turnaround important")]),
      ("client_message", .vStr "Thank you for sharing all of this. An attorney from our team will call you within a few hours to discuss your case in detail."),
      ("internal_notes", .vStr "HOT lead, standard PI case. Quick callback recommended."),
      ("urgency", .vStr "same_day")]
  else if pyEq rating (.vStr "WARM") then do
    let nm ← attorneyName "intake_coordinator"
    return .vDict [
      ("escalation_needed", .vBool true),
      ("escalation_type", .vStr "standard"),
      ("reason", .vStr "Warm lead - standard intake follow-up"),
      ("route_to", .vDict [
        ("role", .vStr "intake_coordinator"),
        ("name", nm),
        ("reason", .vStr "Standard intake process, coordinator to gather additional info")]),
      ("client_message", .vStr "Thank you for reaching out. Our intake coordinator will follow up with you within 24 hours to discuss next steps."),
      ("internal_notes", .vStr "WARM lead. Standard follow-up process."),
      ("urgency", .vStr "24_hours")]
  else
    return .vDict [
      ("escalation_needed", .vBool false),
      ("escalation_type", .vStr "none"),
      ("reason", .vStr "Case may not meet criteria for representation"),
      ("route_to", .vNull),
      ("client_message", .vStr "Thank you for reaching out. Based on what you\x27ve shared, this may not be the type of case our firm handles, but I\x27ll have someone review your information and follow up if we can help."),
      ("internal_notes", .vStr "COLD lead. Review for possible referral to another firm."),
      ("urgency", .vStr "standard")]

/-- `HandoffAgent.process`: immediate-trigger scan first, else routing.
The arguments mirror the keys the call sites pass (`current_message`
defaults to the empty string in the pipeline call). -/
def handoffProcess (current_message : String) (conversation : List Msg)
    (lead_score : Val) (client_info : List (String × Val)) : Except PyErr Val := do
  let immediate_check := checkImmediateEscalation current_message conversation
  let en ← dictIndex immediate_check "escalation_needed"
  if pyTruthy en then
    return immediate_check
  determineRouting lead_score conversation client_info

/-- A run of 50 `=` characters (`"=" * 50`). -/
def eq50 : String := String.mk (List.replicate 50 '=')

/-- `HandoffAgent.create_handoff_summary`. -/
def createHandoffSummary (lead_score : Val) (conversation : List Msg)
    (client_info : List (String × Val)) : Except PyErr String := do
  let nameV := (getKey "name" client_info).getD (.vStr "Unknown")
  let phoneV := (getKey "phone" client_info).getD (.vStr "Unknown")
  let emailV := (getKey "email" client_info).getD (.vStr "Not provided")
  let ratingV ← pyGetD lead_score "rating" (.vStr "N/A")
  let scoreV ← pyGetD lead_score "score" (.vStr "N/A")
  let caseTypeV ← pyGetD lead_score "case_type" (.vStr "N/A")
  let estV ← pyGetD lead_score "estimated_value" (.vStr "Unknown")
  let urgV ← pyGetD lead_score "urgency" (.vStr "Standard")
  let base : List String := [eq50, "CASE HANDOFF SUMMARY", eq50,
    "\nCLIENT: " ++ pyStr nameV,
    "PHONE: " ++ pyStr phoneV,
    "EMAIL: " ++ pyStr emailV,
    "\nLEAD SCORE: " ++ pyStr ratingV ++ " (" ++ pyStr scoreV ++ ")",
    "CASE TYPE: " ++ pyStr caseTypeV,
    "ESTIMATED VALUE: " ++ pyStr estV,
    "URGENCY: " ++ pyStr urgV,
    "\nKEY FACTORS:"]
  let kfV ← pyGetD lead_score "key_factors" (.vList [])
  let kfs ← pyIter kfV
  let factorLines := kfs.map fun f => "  • " ++ pyStr f
  let rfFlagV ← pyGet lead_score "red_flags"
  let redLines ← if pyTruthy rfFlagV then do
      let rfV ← pyGetD lead_score "red_flags" (.vList [])
      let rfs ← pyIter rfV
      pure ("\n⚠️ RED FLAGS:" :: rfs.map fun f => "  • " ++ pyStr f)
    else pure ([] : List String)
  let recV ← pyGetD lead_score "recommended_action" (.vStr "Review and contact")
  let convLines := (conversation.filter fun m => m.role = "user").map fun m =>
    "  Client: " ++ String.mk (m.content.data.take 150) ++ "..."
  return joinStrings "\n" (base ++ factorLines ++ redLines ++
    ["\nRECOMMENDED ACTION: " ++ pyStr recV, "\nCONVERSATION HIGHLIGHTS:"] ++
    convLines ++ ["\n" ++ eq50])

/-! ## Markdown-fence stripping shared by the parsing agents -/

/-- The fence-stripping prelude each parsing agent runs before `json.loads`:
`response.split("```json")[1].split("```")[0]` when a ```json fence is
present, else `response.split("```")[1].split("```")[0]` when any fence is
present, else the response unchanged.  The `[1]` index cannot fail because
it is guarded by the `in` test, hence the (unreachable) `getD` defaults. -/
def stripMarkdown (response : String) : String :=
  if strContains response "```json" then
    ((sSplitOn ((sSplitOn response "```json").getD 1 "") "```").getD 0 "")
  else if strContains response "```" then
    ((sSplitOn ((sSplitOn response "```").getD 1 "") "```").getD 0 "")
  else response

/-! ## LeadScoringAgent -/

/-- `LeadScoringAgent._build_context`. -/
def leadScorerBuildContext (conversation : List Msg)
    (client_info : List (String × Val)) : String :=
  let ciParts : List String :=
    if client_info.isEmpty then [] else
      "CLIENT INFO:" :: (client_info.map fun kv => "  " ++ kv.1 ++ ": " ++ pyStr kv.2) ++ [""]
  let convParts : List String :=
    if conversation.isEmpty then [] else
      "CONVERSATION:" :: conversation.map fun m => "  " ++ sUpper m.role ++ ": " ++ m.content
  joinStrings "\n" (ciParts ++ convParts)

/-- `LeadScoringAgent.process`.  The `try` block catches only
`json.JSONDecodeError`: when `json.loads` succeeds on a non-object (list,
number, ...), the success-path log line `score_data.get('rating')` raises
`AttributeError`, which propagates out of the stage. -/
def leadScorerProcess (env : Env) (conversation : List Msg)
    (client_info : List (String × Val)) : M Val := do
  let context := leadScorerBuildContext conversation client_info
  let response ← callClaude env
    ("Score this lead based on the intake conversation:\n\n" ++ context ++
     "\n\nAnalyze and return the scoring JSON.")
  let response := stripMarkdown response
  match env.loads (sTrim response) with
  | some score_data => do
    let _ ← M.lift (pyGet score_data "rating")
    let _ ← M.lift (pyGet score_data "score")
    return .vDict [("lead_score", score_data)]
  | none =>
    return .vDict [("lead_score",
      .vDict [("error", .vStr "Failed to parse"), ("raw", .vStr response)])]

/-! ## ResearchAgent -/

/-- `ResearchAgent._build_case_context`.  `case_type` and `key_factors` come
straight out of parsed JSON, so joining the factors can raise `TypeError`. -/
def researchBuildCaseContext (case_type : Val) (key_factors : Val)
    (conversation : List Msg) (state : String) : Except PyErr String := do
  let kfJoined ← pyJoin ", " key_factors
  let head : List String :=
    ["CASE TYPE: " ++ pyStr case_type, "STATE: " ++ state,
     "KEY FACTORS: " ++ kfJoined]
  let convParts : List String :=
    if conversation.isEmpty then [] else
      "\nRELEVANT CASE FACTS FROM INTAKE:" ::
        (conversation.filter fun m => m.role = "user").map fun m =>
          "  - " ++ String.mk (m.content.data.take 200)
  return joinStrings "\n" (head ++ convParts)

/-- `ResearchAgent._full_research`.  The bare `except:` means any parse
outcome other than a successful `json.loads` falls back to wrapping the
(fence-stripped) raw text in a single `research_summary` field; a
successfully parsed non-object is stored as-is. -/
def fullResearch (env : Env) (context : String) (state : String) : M Val := do
  let response ← callClaude env
    ("Conduct legal research for this case:\n\n" ++ context ++
     "\n\nProvide comprehensive research including:\n1. Statute of limitations for " ++
     state ++
     "\n2. Liability framework and elements to prove\n3. Damages potential and any caps\n4. Relevant case precedents or statutes\n5. Recommended next steps\n6. Any red flags or concerns\n\nReturn as detailed JSON.")
  let response := stripMarkdown response
  match env.loads (sTrim response) with
  | some research => return .vDict [("research", research)]
  | none => return .vDict [("research", .vDict [("research_summary", .vStr response)])]

/-- The static statute table of `ResearchAgent._research_statute`
(Nevada/California rows coincide in the source). -/
def statutesNevada : List (String × String) :=
  [("personal_injury", "2 years"),
   ("medical_malpractice", "3 years from injury or 1 year from discovery"),
   ("wrongful_death", "2 years"),
   ("product_liability", "2 years")]

def statutesTexas : List (String × String) :=
  [("personal_injury", "2 years"),
   ("medical_malpractice", "2 years"),
   ("wrongful_death", "2 years"),
   ("product_liability", "2 years")]

def statutes : List (String × List (String × String)) :=
  [("Nevada", statutesNevada), ("California", statutesNevada), ("Texas", statutesTexas)]

/-- `ResearchAgent._research_statute` (every key used is present in every
row of the table, so the `getD ""` defaults are unreachable). -/
def researchStatute (case_type : Val) (state : String) : Except PyErr Val := do
  let state_statutes := (getKey state statutes).getD statutesNevada
  let ct ← pyLower case_type
  let pair :=
    if strContains ct "medical" || strContains ct "malpractice" then
      ((getKey "medical_malpractice" state_statutes).getD "", "medical_malpractice")
    else if strContains ct "death" then
      ((getKey "wrongful_death" state_statutes).getD "", "wrongful_death")
    else if strContains ct "product" then
      ((getKey "product_liability" state_statutes).getD "", "product_liability")
    else
      ((getKey "personal_injury" state_statutes).getD "", "personal_injury")
  return .vDict [("statute_of_limitations", .vDict [
    ("state", .vStr state),
    ("case_type", .vStr pair.2),
    ("deadline", .vStr pair.1),
    ("note", .vStr "Verify current law - statutes may have changed"),
    ("discovery_rule", .vStr "May apply if injury was not immediately apparent")])]

/-- `ResearchAgent._research_liability` — a successful parse is returned
unwrapped, the fallback wraps the raw text under `liability_analysis`. -/
def researchLiability (env : Env) (context : String) : M Val := do
  let response ← callClaude env
    ("Analyze liability for this case:\n\n" ++ context ++
     "\n\nProvide:\n1. Applicable liability framework (negligence, strict liability, etc.)\n2. Elements plaintiff must prove\n3. Potential defendants\n4. Likely defenses\n5. Comparative fault considerations\n\nReturn as JSON with liability_analysis object.")
  let response := stripMarkdown response
  match env.loads (sTrim response) with
  | some v => return v
  | none => return .vDict [("liability_analysis", .vDict [("summary", .vStr response)])]

/-- `ResearchAgent.process`.  The context is built (and can raise) before
the `research_type` dispatch; the pipeline always passes `"full"`. -/
def researchProcess (env : Env) (lead_score : Val) (conversation : List Msg)
    (_client_info : List (String × Val)) (state : String)
    (research_type : String) : M Val := do
  let case_type ← M.lift (pyGetD lead_score "case_type" (.vStr "Personal Injury"))
  let key_factors ← M.lift (pyGetD lead_score "key_factors" (.vList []))
  let context ← M.lift (researchBuildCaseContext case_type key_factors conversation state)
  if research_type = "statute_only" then
    M.lift (researchStatute case_type state)
  else if research_type = "liability_only" then
    researchLiability env context
  else
    fullResearch env context state

/-! ## FollowupAgent -/

/-- `FollowupAgent._build_context`. -/
def followupBuildContext (lead_score : Val) (conversation : List Msg)
    (client_info : List (String × Val)) (stage : Nat) : Except PyErr String := do
  let ciParts : List String :=
    if client_info.isEmpty then [] else
      "CLIENT INFO:" :: client_info.map fun kv => "  " ++ kv.1 ++ ": " ++ pyStr kv.2
  let lsParts ← if pyTruthy lead_score then do
      let s ← pyGetD lead_score "score" (.vStr "N/A")
      let ct ← pyGetD lead_score "case_type" (.vStr "N/A")
      let kf ← pyGetD lead_score "key_factors" (.vList [])
      let kfJoined ← pyJoin ", " kf
      pure ["\nLEAD SCORE: " ++ pyStr s, "CASE TYPE: " ++ pyStr ct,
            "KEY FACTORS: " ++ kfJoined]
    else pure ([] : List String)
  let convParts : List String :=
    if conversation.isEmpty then [] else
      let recent := if conversation.length > 4 then
          conversation.drop (conversation.length - 4)
        else conversation
      "\nORIGINAL CONVERSATION SUMMARY:" ::
        recent.map fun m =>
          "  " ++ sUpper m.role ++ ": " ++ String.mk (m.content.data.take 100) ++ "..."
  return joinStrings "\n"
    (ciParts ++ lsParts ++ convParts ++ ["\nFOLLOW-UP STAGE: " ++ toString stage])

/-- `FollowupAgent.process`.  Bare `except:` around parsing, so every parse
failure degrades to `{'body': raw, 'message_type': channel}`. -/
def followupProcess (env : Env) (lead_score : Val) (conversation : List Msg)
    (client_info : List (String × Val)) (follow_up_stage : Nat)
    (channel : String) : M Val := do
  let rating ← M.lift (pyGetD lead_score "rating" (.vStr "WARM"))
  let context ← M.lift (followupBuildContext lead_score conversation client_info follow_up_stage)
  let response ← callClaude env
    ("Generate a " ++ sUpper channel ++ " follow-up message for this lead.\n\n" ++
     context ++ "\n\nThis is follow-up #" ++ toString follow_up_stage ++
     ". Lead is rated " ++ pyStr rating ++ ".\nGenerate an appropriate " ++
     channel ++ " message.")
  let response := stripMarkdown response
  match env.loads (sTrim response) with
  | some d => return .vDict [("follow_up", d)]
  | none =>
    return .vDict [("follow_up",
      .vDict [("body", .vStr response), ("message_type", .vStr channel)])]

/-- `FollowupAgent.generate_sequence`: the purely deterministic cadence —
no generation call is involved (the function does not touch `M`). -/
def generateSequence (lead_score : Val) (_client_info : List (String × Val)) :
    Except PyErr (List SeqEntry) := do
  let rating ← pyGetD lead_score "rating" (.vStr "WARM")
  if pyEq rating (.vStr "HOT") then
    return [⟨1, 1, "sms"⟩, ⟨2, 24, "email"⟩, ⟨3, 72, "sms"⟩, ⟨4, 168, "email"⟩]
  else if pyEq rating (.vStr "WARM") then
    return [⟨1, 24, "email"⟩, ⟨2, 72, "sms"⟩, ⟨3, 168, "email"⟩, ⟨4, 336, "email"⟩]
  else
    return [⟨1, 48, "email"⟩, ⟨2, 168, "email"⟩]

/-! ## DocumentCollectorAgent -/

/-- `DocumentCollectorAgent._generate_document_request`.  Bare `except:`, so
every parse failure degrades to `{'message_to_client': raw}`. -/
def generateDocumentRequest (env : Env) (case_type : Val) (lead_score : Val)
    (client_info : List (String × Val)) : M Val := do
  let rating ← M.lift (pyGetD lead_score "rating" (.vStr "WARM"))
  let kf ← M.lift (pyGetD lead_score "key_factors" (.vList []))
  let kfJoined ← M.lift (pyJoin ", " kf)
  let nameV := (getKey "name" client_info).getD (.vStr "Client")
  let response ← callClaude env
    ("Generate a document request for this case:\n\nCASE TYPE: " ++ pyStr case_type ++
     "\nLEAD RATING: " ++ pyStr rating ++ "\nKEY FACTORS: " ++ kfJoined ++
     "\nCLIENT NAME: " ++ pyStr nameV ++
     "\n\nCreate a friendly but specific document request. Prioritize the most critical items.\nReturn as JSON with documents_requested array and message_to_client.")
  let response := stripMarkdown response
  match env.loads (sTrim response) with
  | some d => return .vDict [("document_request", d)]
  | none =>
    return .vDict [("document_request", .vDict [("message_to_client", .vStr response)])]

/-- The three standard forms of `_get_required_forms`. -/
def standardForms : List (String × Val) :=
  [("medical_release", .vDict [
     ("name", .vStr "Medical Records Release Authorization"),
     ("description", .vStr "Allows us to obtain your medical records"),
     ("required", .vBool true),
     ("template_id", .vStr "HIPAA_AUTH_001")]),
   ("representation_agreement", .vDict [
     ("name", .vStr "Representation Agreement"),
     ("description", .vStr "Formal agreement for us to represent you"),
     ("required", .vBool true),
     ("template_id", .vStr "REP_AGREE_001")]),
   ("incident_questionnaire", .vDict [
     ("name", .vStr "Detailed Incident Questionnaire"),
     ("description", .vStr "Helps us understand exactly what happened"),
     ("required", .vBool true),
     ("template_id", .vStr "INCIDENT_Q_001")])]

/-- `DocumentCollectorAgent._get_required_forms`. -/
def getRequiredForms (case_type : Val) : Except PyErr Val := do
  let ct ← pyLower case_type
  let withVehicle :=
    if strContains ct "auto" || strContains ct "car" then
      setKey "vehicle_damage" (Val.vDict [
        ("name", .vStr "Vehicle Damage Documentation Form"),
        ("description", .vStr "Details about your vehicle and damage"),
        ("required", .vBool true),
        ("template_id", .vStr "VEH_DMG_001")]) standardForms
    else standardForms
  let withEmployment :=
    if strContains ct "workplace" || strContains ct "work" then
      setKey "employment_verification" (Val.vDict [
        ("name", .vStr "Employment and Wage Verification"),
        ("description", .vStr "Documents your employment and lost wages"),
        ("required", .vBool true),
        ("template_id", .vStr "EMP_VERIFY_001")]) withVehicle
    else withVehicle
  return .vDict [("forms", .vDict withEmployment), ("case_type", case_type),
    ("instructions", .vStr "We will email these forms to you. Please complete and return within 48 hours to expedite your case.")]

/-- `DocumentCollectorAgent._check_document_status`. -/
def checkDocumentStatus (session_id : Val) : Val :=
  .vDict [("session_id", session_id), ("status", .vStr "pending"),
    ("received", .vList []),
    ("outstanding", .vList [.vStr "medical_release", .vStr "photos", .vStr "police_report"]),
    ("message", .vStr "Waiting for client to submit documents")]

/-- `DocumentCollectorAgent.process` — the pipeline always calls with
`action = 'request_documents'`. -/
def docCollectorProcess (env : Env) (lead_score : Val)
    (client_info : List (String × Val)) (action : String)
    (session_id : Val) : M Val := do
  let case_type ← M.lift (pyGetD lead_score "case_type" (.vStr "Personal Injury"))
  if action = "request_documents" then
    generateDocumentRequest env case_type lead_score client_info
  else if action = "send_forms" then
    M.lift (getRequiredForms case_type)
  else if action = "check_status" then
    return checkDocumentStatus session_id
  else
    return .vDict [("error", .vStr "Unknown action")]

/-! ## SchedulerAgent

The slot table is generated once at construction from `datetime.now()`, so
it is part of the initial state (`Orch.schedSlots`).  Date formatting uses
Zeller's congruence for `strftime('%A')`; `strptime` validation is modelled
by `parseDate` (slots carry well-formed dates by construction). -/

/-- A slot as the Python dict the scheduler stores. -/
def slotToVal (s : Slot) : Val :=
  .vDict [("date", .vStr s.date), ("time", .vStr s.time),
    ("available", .vBool s.available), ("attorney", .vStr s.attorney)]

/-- `datetime.strptime(s, '%Y-%m-%d')`: year, month, day or `ValueError`. -/
def parseDate (s : String) : Except PyErr (Nat × Nat × Nat) :=
  match (sSplitOn s "-").map (fun t => digitsToNat? t.data) with
  | [some y, some m, some d] =>
    if 1 ≤ m && m ≤ 12 && 1 ≤ d && d ≤ 31 then .ok (y, m, d)
    else .error .valueError
  | _ => .error .valueError

/-- `strftime('%A')` via Zeller's congruence. -/
def dayNameOf (y m d : Nat) : String :=
  let ym := if m < 3 then (y - 1, m + 12) else (y, m)
  let k := ym.1 % 100
  let j := ym.1 / 100
  let h := (d + (13 * (ym.2 + 1)) / 5 + k + k / 4 + j / 4 + 5 * j) % 7
  (["Saturday", "Sunday", "Monday", "Tuesday", "Wednesday", "Thursday",
    "Friday"].getD h "")

/-- `strftime('%B %d')` (month name and zero-padded day). -/
def formatMonthDay (m d : Nat) : String :=
  (["January", "February", "March", "April", "May", "June", "July", "August",
    "September", "October", "November", "December"].getD (m - 1) "") ++ " " ++
  (if d < 10 then "0" ++ toString d else toString d)

/-- `SchedulerAgent._get_availability`. -/
def getAvailability (lead_score : Val) (slots : List Slot) : Except PyErr Val := do
  let rating ← pyGetD lead_score "rating" (.vStr "WARM")
  let avail := slots.filter (·.available)
  let chosen := if pyEq rating (.vStr "HOT") then avail.take 5 else avail.take 10
  let note := if pyEq rating (.vStr "HOT") then
      "Priority scheduling - earliest available times"
    else "Standard scheduling"
  return .vDict [("available_slots", .vList (chosen.map slotToVal)),
    ("urgency_note", .vStr note), ("total_available", .vInt avail.length)]

/-- `SchedulerAgent._suggest_times`. -/
def suggestTimes (lead_score : Val) (slots : List Slot) : Except PyErr Val := do
  let availability ← getAvailability lead_score slots
  let av ← dictIndex availability "available_slots"
  let top3 ← pySliceTo av 3
  let items ← pyIter top3
  if items.isEmpty then
    return .vDict [
      ("suggestion", .vStr "I apologize, but we\x27re fully booked at the moment. Can I take your number and have someone call you when a slot opens up?"),
      ("slots", .vList [])]
  let formatted ← items.mapM fun slot => do
    let dateV ← dictIndex slot "date"
    let dateS ← (match dateV with
      | .vStr s => Except.ok s
      | _ => Except.error PyErr.typeError)
    let ymd ← parseDate dateS
    let timeV ← dictIndex slot "time"
    Except.ok (dayNameOf ymd.1 ymd.2.1 ymd.2.2 ++ ", " ++
      formatMonthDay ymd.2.1 ymd.2.2 ++ " at " ++ pyStr timeV)
  let rating ← pyGetD lead_score "rating" (.vStr "WARM")
  let suggestion :=
    if pyEq rating (.vStr "HOT") then
      "Given the urgency of your situation, I\x27d like to get you in as soon as possible. I have availability " ++
      formatted.headD "" ++ ". Would that work for you?"
    else
      "I have a few times available this week: " ++ joinStrings ", " formatted ++
      ". Which works best for you?"
  return .vDict [("suggestion", .vStr suggestion), ("slots", top3)]

/-- The slot-marking loop of `_book_appointment`: mark the first slot whose
date and time match as unavailable, returning the updated table and the
matched slot (with `available` already set to `False`, as the dict the
Python loop keeps using has been mutated). -/
def bookSlotIn (dateV timeV : Val) : List Slot → List Slot × Option Slot
  | [] => ([], none)
  | s :: rest =>
    if pyEq (.vStr s.date) dateV && pyEq (.vStr s.time) timeV then
      ({ s with available := false } :: rest, some { s with available := false })
    else
      let r := bookSlotIn dateV timeV rest
      (s :: r.1, r.2)

/-- `SchedulerAgent._book_appointment` (not reached by the pipeline, which
only ever passes `suggest_times`).  When the table is empty the loop body —
including `selected_slot.get(...)` — never runs. -/
def bookAppointment (client_info : List (String × Val)) (selected_slot : Val)
    (consultation_type : String) (lead_score : Val) : M Val := do
  let st ← M.get
  if st.schedSlots.isEmpty then
    return .vDict [("success", .vBool false),
      ("error", .vStr "Selected slot is no longer available")]
  let dateV ← M.lift (pyGet selected_slot "date")
  let timeV ← M.lift (pyGet selected_slot "time")
  let booked := bookSlotIn dateV timeV st.schedSlots
  match booked.2 with
  | none =>
    return .vDict [("success", .vBool false),
      ("error", .vStr "Selected slot is no longer available")]
  | some slot => do
    M.set { st with schedSlots := booked.1 }
    let case_typeV ← M.lift (pyGetD lead_score "case_type" (.vStr "General"))
    let nameV := (getKey "name" client_info).getD (.vStr "Unknown")
    let phoneV := (getKey "phone" client_info).getD (.vStr "Unknown")
    let appointment : Val := .vDict [
      ("date", .vStr slot.date), ("time", .vStr slot.time),
      ("duration_minutes", .vInt 30), ("type", .vStr consultation_type),
      ("attorney", .vStr slot.attorney), ("client_name", nameV),
      ("client_phone", phoneV), ("case_type", case_typeV),
      ("status", .vStr "confirmed")]
    let ymd ← M.lift (parseDate slot.date)
    let confirmationHead :=
      "You\x27re all set! Your consultation is confirmed for " ++
      dayNameOf ymd.1 ymd.2.1 ymd.2.2 ++ ", " ++
      formatMonthDay ymd.2.1 ymd.2.2 ++ " at " ++ slot.time ++ ". "
    let tail :=
      if consultation_type = "phone" then
        "An attorney will call you at " ++
        pyStr ((getKey "phone" client_info).getD (.vStr "your number on file")) ++ "."
      else if consultation_type = "video" then
        "You\x27ll receive a video link via email shortly."
      else
        "We\x27ll see you at our office."
    return .vDict [("appointment", appointment),
      ("confirmation_message", .vStr (confirmationHead ++ tail)),
      ("success", .vBool true)]

/-- `SchedulerAgent.process` — the pipeline always calls with
`action = 'suggest_times'` and default `selected_slot`/`consultation_type`. -/
def schedulerProcess (_env : Env) (action : String) (lead_score : Val)
    (client_info : List (String × Val)) (selected_slot : Val)
    (consultation_type : String) : M Val := do
  if action = "check_availability" then do
    let st ← M.get
    M.lift (getAvailability lead_score st.schedSlots)
  else if action = "book" then
    bookAppointment client_info selected_slot consultation_type lead_score
  else if action = "suggest_times" then do
    let st ← M.get
    M.lift (suggestTimes lead_score st.schedSlots)
  else
    return .vDict [("error", .vStr "Unknown action")]

/-! ## SpanishAgent and IntakeAgent -/

/-- `SpanishAgent._detect_language`: the bilingual agent has its own, larger
indicator list than the orchestrator's. -/
def spanishIndicators : List String :=
  ["hola", "necesito", "ayuda", "abogado", "accidente",
   "tengo", "quiero", "gracias", "buenos", "días",
   "por favor", "mi", "es", "un", "una", "el", "la",
   "qué", "cómo", "cuándo", "dónde", "puedo"]

def spanishDetectLanguage (text : String) : String :=
  if 2 ≤ (spanishIndicators.filter fun w => strContains (sLower text) w).length
  then "spanish" else "english"

/-- The fields of `SpanishAgent.process`'s result dict that callers read. -/
structure SpanishResult where
  response : String
  language : String
  agent_used : String

/-- `SpanishAgent.process` — the prompt sent to the collaborator is the
prior conversation plus the new user message. -/
def spanishProcess (env : Env) (message : String) (conversation : List Msg) :
    M SpanishResult := do
  let prompt := joinStrings "\n"
    ((conversation ++ [Msg.mk "user" message]).map fun m => m.role ++ ": " ++ m.content)
  let response ← callClaude env prompt
  return { response := response,
           language := spanishDetectLanguage message,
           agent_used := "SpanishIntake" }

/-- The fields of `IntakeAgent.process`'s result dict that callers read
(`client_info` is always `{}`: `_extract_client_info` returns the empty
dict). -/
structure IntakeResult where
  response : String
  conversation : List Msg

/-- `IntakeAgent.process`: appends the user message to the agent's *private*
per-conversation history (creating it on first use), calls the collaborator
on the whole history, appends the reply, and returns the updated history. -/
def intakeProcess (env : Env) (message : String) (conversation_id : String) :
    M IntakeResult := do
  let st ← M.get
  let conv0 := (getKey conversation_id st.intakeConvs).getD []
  let conv1 := conv0 ++ [⟨"user", message⟩]
  M.set { st with intakeConvs := setKey conversation_id conv1 st.intakeConvs }
  let response ← callClaude env
    (joinStrings "\n" (conv1.map fun m => m.role ++ ": " ++ m.content))
  let st2 ← M.get
  let conv2 := ((getKey conversation_id st2.intakeConvs).getD []) ++
    [⟨"assistant", response⟩]
  M.set { st2 with intakeConvs := setKey conversation_id conv2 st2.intakeConvs }
  return { response := response, conversation := conv2 }

/-! ## LegalAgentOrchestrator -/

/-- `LegalAgentOrchestrator._detect_language`: count of fixed Spanish words
occurring (case-insensitively) as substrings; two or more means Spanish. -/
def spanishWords : List String :=
  ["hola", "necesito", "ayuda", "accidente", "abogado",
   "tengo", "por favor", "gracias", "buenas", "días"]

/-- The number of Spanish words from the orchestrator's fixed list occurring
in the lower-cased input (`sum(1 for word in spanish_words if word in
text_lower)`; the list has no duplicates, so this counts distinct words). -/
def spanishWordCount (text : String) : Nat :=
  (spanishWords.filter fun w => strContains (sLower text) w).length

/-- `LegalAgentOrchestrator._detect_language` — deterministic, no state, no
external call. -/
def detectLanguage (text : String) : String :=
  if 2 ≤ spanishWordCount text then "spanish" else "english"

/-- Conversation entry as the Python dict. -/
def msgToVal (m : Msg) : Val :=
  .vDict [("role", .vStr m.role), ("content", .vStr m.content)]

/-- The fresh session record `start_session` stores unconditionally
(overwriting any session already under the key). -/
def newSession (env : Env) (language : String) : Session :=
  { started_at := env.now
    language := language
    status := "active"
    conversation := []
    client_info := []
    lead_score := .vNull
    research := .vNull
    documents_requested := .vList []
    documents_received := []
    appointments := []
    follow_ups := []
    handoff := .vNull
    follow_up_sequence := none
    agents_used := [if language = "english" then "intake" else "spanish"] }

/-- `LegalAgentOrchestrator.start_session`. -/
def startSession (env : Env) (session_id : String) (initial_message : String) :
    M Val := do
  let language := detectLanguage initial_message
  let st ← M.get
  M.set { st with sessions := setKey session_id (newSession env language) st.sessions }
  if language = "spanish" then do
    let result ← spanishProcess env initial_message []
    modifySession session_id fun s => { s with conversation :=
      [⟨"user", initial_message⟩, ⟨"assistant", result.response⟩] }
    return .vDict [("response", .vStr result.response),
      ("session_id", .vStr session_id), ("language", .vStr language),
      ("agent", .vStr "spanish")]
  else do
    let result ← intakeProcess env initial_message session_id
    modifySession session_id fun s => { s with conversation := result.conversation }
    return .vDict [("response", .vStr result.response),
      ("session_id", .vStr session_id), ("language", .vStr language),
      ("agent", .vStr "intake")]

/-- `LegalAgentOrchestrator.continue_session`.  An unknown id degrades to
`start_session`.  Otherwise the escalation gate runs first — receiving the
raw `session.get('lead_score', {})`, which is `None` (not `{}`) for every
session that has not run the pipeline, since the key is present with value
`None`; on the no-trigger path `_determine_routing` then raises
`AttributeError` on `None.get`.  An `'immediate'` decision records the
decision into `handoff`, marks the session escalated and returns without
appending anything to the conversation (the triggering message is never
stored). -/
def continueSession (env : Env) (session_id : String) (message : String) :
    M Val := do
  let st ← M.get
  match getKey session_id st.sessions with
  | none => startSession env session_id message
  | some session => do
    let handoff_check ← M.lift (handoffProcess message session.conversation
        session.lead_score session.client_info)
    let et ← M.lift (pyGet handoff_check "escalation_type")
    if pyEq et (.vStr "immediate") then do
      modifySession session_id fun s =>
        { s with handoff := handoff_check, status := "escalated" }
      let cm ← M.lift (dictIndex handoff_check "client_message")
      return .vDict [("response", cm), ("escalated", .vBool true),
        ("urgency", .vStr "immediate")]
    else if session.language = "spanish" then do
      let result ← spanishProcess env message session.conversation
      modifySession session_id fun s => { s with conversation :=
        s.conversation ++ [⟨"user", message⟩, ⟨"assistant", result.response⟩] }
      let sAfter ← readSession session_id
      return .vDict [("response", .vStr result.response),
        ("session_id", .vStr session_id),
        ("message_count", .vInt sAfter.conversation.length)]
    else do
      let result ← intakeProcess env message session_id
      modifySession session_id fun s => { s with conversation := result.conversation }
      let sAfter ← readSession session_id
      return .vDict [("response", .vStr result.response),
        ("session_id", .vStr session_id),
        ("message_count", .vInt sAfter.conversation.length)]

/-- `LegalAgentOrchestrator._format_list`. -/
def formatList (items : Val) : Except PyErr String := do
  let top ← pySliceTo items 3
  let xs ← pyIter top
  let lines ← xs.mapM fun item => do
    let i50 ← pySliceTo item 50
    let f ← pyFormatW i50 50
    Except.ok ("║    • " ++ f ++ "   ║\n")
  if lines.isEmpty then
    return "║    • None                                              ║\n"
  else
    return joinStrings "" lines

/-- The 62-character `═` rule of the summary box (written with `replicate`
so the literal matches the source's banner line for line). -/
def eqBar : String := String.mk (List.replicate 62 '═')

/-- `LegalAgentOrchestrator._generate_summary` — the boxed report built from
the accumulated session fields; its f-string format specs can raise on
non-string JSON values, which matters for totality but for no claim. -/
def generateSummary (session : Session) : Except PyErr String := do
  let score := session.lead_score
  let ratingV ← pyGetD score "rating" (.vStr "N/A")
  let ratingF ← pyFormatW ratingV 8
  let scoreV ← pyGetD score "score" (.vStr "N/A")
  let scoreF := padRight (pyStr scoreV) 3
  let ctV ← pyGetD score "case_type" (.vStr "N/A")
  let ct40 ← pySliceTo ctV 40
  let ctF ← pyFormatW ct40 40
  let urgV ← pyGetD score "urgency" (.vStr "N/A")
  let urgF ← pyFormatW urgV 10
  let estV ← pyGetD score "estimated_value" (.vStr "unknown")
  let estF ← pyFormatW estV 10
  let kfV ← pyGetD score "key_factors" (.vList [])
  let kfL ← formatList kfV
  let rfV ← pyGetD score "red_flags" (.vList [])
  let rfL ← formatList (if pyTruthy rfV then rfV else .vList [.vStr "None"])
  let recV ← pyGetD score "recommended_action" (.vStr "N/A")
  let rec45 ← pySliceTo recV 45
  let recF ← pyFormatW rec45 45
  let msgF := padLeftNat session.conversation.length 3
  let langF := padRight session.language 8
  let agF := padLeftNat session.agents_used.length 1
  return "\n╔" ++ eqBar ++ "╗\n" ++
    "║                    INTAKE COMPLETE                            ║\n" ++
    "╠" ++ eqBar ++ "╣\n" ++
    "║  Rating: " ++ ratingF ++ " Score: " ++ scoreF ++ "                       ║\n" ++
    "║  Case Type: " ++ ctF ++ "   ║\n" ++
    "║  Urgency: " ++ urgF ++ "                                    ║\n" ++
    "║  Est. Value: " ++ estF ++ "                              ║\n" ++
    "╠" ++ eqBar ++ "╣\n" ++
    "║  Key Factors:                                                 ║\n" ++
    kfL ++ "║  Red Flags:                                                   ║\n" ++
    rfL ++ "╠" ++ eqBar ++ "╣\n" ++
    "║  Recommended: " ++ recF ++ "║\n" ++
    "║  Messages: " ++ msgF ++ "    Language: " ++ langF ++ "              ║\n" ++
    "║  Agents Used: " ++ agF ++ "                                             ║\n" ++
    "╚" ++ eqBar ++ "╝\n"

/-- `sequence[0]['channel'] if sequence else 'email'` — the follow-up
channel for the first drafted message. -/
def firstChannel : List SeqEntry → String
  | [] => "email"
  | e :: _ => e.channel

/-- One follow-up sequence entry as the Python dict. -/
def seqEntryToVal (e : SeqEntry) : Val :=
  .vDict [("stage", .vInt e.stage), ("delay_hours", .vInt e.delay_hours),
    ("channel", .vStr e.channel)]

/-- The `{'error': 'Session not found'}` result. -/
def sessionNotFound : Val := .vDict [("error", .vStr "Session not found")]

/-- The six-stage body of `complete_intake`, run only after the session-id
membership check.  Mutations are sequenced exactly as in the source; the
arguments of the stage-progress `print` lines are evaluated where the source
evaluates them, because two of them can raise (`.get` on a non-dict score,
and `.get('role')` on the `None` `route_to` of a COLD routing decision). -/
def runPipeline (env : Env) (session_id : String) (state_ : String) : M Val := do
  modifySession session_id fun s => { s with status := "processing" }
  -- stage 1: lead scoring
  let s1 ← readSession session_id
  let score_result ← leadScorerProcess env s1.conversation s1.client_info
  let ls ← M.lift (pyGetD score_result "lead_score" (.vDict []))
  modifySession session_id fun s =>
    { s with lead_score := ls, agents_used := s.agents_used ++ ["lead_scorer"] }
  let results := setKey "lead_score" ls ([] : List (String × Val))
  let _ ← M.lift (pyGet ls "rating")
  let _ ← M.lift (pyGet ls "score")
  -- stage 2: legal research
  let s2 ← readSession session_id
  let research_result ← researchProcess env s2.lead_score s2.conversation
    s2.client_info state_ "full"
  let res ← M.lift (pyGetD research_result "research" (.vDict []))
  modifySession session_id fun s =>
    { s with research := res, agents_used := s.agents_used ++ ["research"] }
  let results := setKey "research" res results
  -- stage 3: handoff / routing
  let s3 ← readSession session_id
  let handoff_result ← M.lift (handoffProcess "" s3.conversation s3.lead_score
    s3.client_info)
  modifySession session_id fun s =>
    { s with handoff := handoff_result, agents_used := s.agents_used ++ ["handoff"] }
  let results := setKey "handoff" handoff_result results
  let rt ← M.lift (pyGetD handoff_result "route_to" (.vDict []))
  let _ ← M.lift (pyGetD rt "role" (.vStr "N/A"))
  let _ ← M.lift (pyGetD handoff_result "urgency" (.vStr "standard"))
  -- stage 4: follow-up sequence
  let s4 ← readSession session_id
  let sequence ← M.lift (generateSequence s4.lead_score s4.client_info)
  modifySession session_id fun s => { s with follow_up_sequence := some sequence }
  let channel := firstChannel sequence
  let s4b ← readSession session_id
  let first_followup ← followupProcess env s4b.lead_score s4b.conversation
    s4b.client_info 1 channel
  let fu ← M.lift (pyGetD first_followup "follow_up" (.vDict []))
  let results := setKey "follow_up"
    (.vDict [("sequence", .vList (sequence.map seqEntryToVal)),
             ("first_message", fu)]) results
  modifySession session_id fun s =>
    { s with agents_used := s.agents_used ++ ["followup"] }
  -- stage 5: document collection
  let s5 ← readSession session_id
  let doc_result ← docCollectorProcess env s5.lead_score s5.client_info
    "request_documents" .vNull
  let dr ← M.lift (pyGetD doc_result "document_request" (.vDict []))
  modifySession session_id fun s =>
    { s with documents_requested := dr,
             agents_used := s.agents_used ++ ["document_collector"] }
  let results := setKey "documents" doc_result results
  -- stage 6: scheduling, for HOT leads only
  let s6 ← readSession session_id
  let rating ← M.lift (pyGetD s6.lead_score "rating" (.vStr "WARM"))
  let results ← if pyEq rating (.vStr "HOT") then do
      let schedule_result ← schedulerProcess env "suggest_times" s6.lead_score
        s6.client_info (.vDict []) "phone"
      modifySession session_id fun s =>
        { s with agents_used := s.agents_used ++ ["scheduler"] }
      pure (setKey "scheduling" schedule_result results)
    else
      pure (setKey "scheduling" .vNull results)
  -- final summaries
  modifySession session_id fun s => { s with status := "completed" }
  let s7 ← readSession session_id
  let summary ← M.lift (generateSummary s7)
  let results := setKey "session_summary" (.vStr summary) results
  let hsum ← M.lift (createHandoffSummary s7.lead_score s7.conversation
    s7.client_info)
  let results := setKey "handoff_summary" (.vStr hsum) results
  return .vDict results

/-- `LegalAgentOrchestrator.complete_intake`: precondition check on the
session id, then the fixed six-stage pipeline. -/
def completeIntake (env : Env) (session_id : String) (state_ : String) : M Val := do
  let st ← M.get
  match getKey session_id st.sessions with
  | none => return sessionNotFound
  | some _ => runPipeline env session_id state_

/-! ## Observation helpers and evaluation lemmas -/

/-- Status of a stored session (empty string when the id is unknown). -/
def statusOf (st : Orch) (sid : String) : String :=
  ((getKey sid st.sessions).map Session.status).getD ""

/-- Conversation of a stored session. -/
def convOf (st : Orch) (sid : String) : List Msg :=
  ((getKey sid st.sessions).map Session.conversation).getD []

/-- `agents_used` of a stored session. -/
def agentsOf (st : Orch) (sid : String) : List String :=
  ((getKey sid st.sessions).map Session.agents_used).getD []

/-- `lead_score` of a stored session (a string marker when unknown, to keep
it distinguishable from a genuine `None`). -/
def leadScoreOf (st : Orch) (sid : String) : Val :=
  ((getKey sid st.sessions).map Session.lead_score).getD (.vStr "absent")

/-- The payload of a successful run (used to state success without an
existential: `x.1 = .ok (runResult x)` says exactly that `x` succeeded). -/
def runResult (x : Except PyErr Val × Orch) : Val :=
  match x.1 with
  | .ok v => v
  | .error _ => .vNull

theorem bind_apply_pair {α β : Type} (x : M α) (f : α → M β) (s : Orch) :
    (x >>= f) s =
      match x s with
      | (.ok a, s') => f a s'
      | (.error e, s') => (.error e, s') := rfl

@[simp] theorem bind_apply {α β : Type} (x : M α) (f : α → M β) (s : Orch) :
    (x >>= f) s =
      match (x s).1 with
      | .ok a => f a (x s).2
      | .error e => (.error e, (x s).2) := by
  rw [bind_apply_pair]
  rcases hx : x s with ⟨r, s2⟩
  cases r <;> simp

@[simp] theorem pure_apply {α : Type} (a : α) (s : Orch) :
    (pure a : M α) s = (.ok a, s) := rfl

@[simp] theorem lift_apply {α : Type} (x : Except PyErr α) (s : Orch) :
    M.lift x s = (x, s) := rfl

@[simp] theorem get_apply (s : Orch) : M.get s = (.ok s, s) := rfl

@[simp] theorem set_apply (s s' : Orch) : M.set s' s = (.ok (), s') := rfl

@[simp] theorem callClaude_apply (env : Env) (p : String) (s : Orch) :
    callClaude env p s = (.ok (env.gen s.genCount), { s with genCount := s.genCount + 1 }) := rfl

@[simp] theorem modifySession_apply (sid : String) (f : Session → Session) (s : Orch) :
    modifySession sid f s = (.ok (), { s with sessions :=
      (match getKey sid s.sessions with
       | some sess => setKey sid (f sess) s.sessions
       | none => s.sessions) }) := rfl

@[simp] theorem readSession_apply (sid : String) (s : Orch) :
    readSession sid s =
      (match getKey sid s.sessions with
       | some sess => (.ok sess, s)
       | none => (.error .keyError, s)) := rfl

/-! ## Shared concrete fixtures for witnesses and counterexamples -/

/-- Empty initial orchestrator state (fresh process, no simulated slots). -/
def initOrch : Orch := { sessions := [], intakeConvs := [], schedSlots := [], genCount := 0 }

/-- A generation collaborator that always answers free-form prose the JSON
parser rejects. -/
def envNone : Env :=
  { gen := fun n => "out" ++ toString n, loads := fun _ => none, now := "T0" }

/-- A fallback session record for total projections. -/
def fallbackSession : Session :=
  { started_at := "", language := "", status := "", conversation := [],
    client_info := [], lead_score := .vNull, research := .vNull,
    documents_requested := .vList [], documents_received := [],
    appointments := [], follow_ups := [], handoff := .vNull,
    follow_up_sequence := none, agents_used := [] }

/-- English session started with a harmless first message. -/
def st0 : Orch := (startSession envNone "s" "Hi, I was in a car crash" initOrch).2

/-- `st0` after a message containing the trigger word `suicidal`: the
session is escalated by the gate. -/
def stEsc : Orch := (continueSession envNone "s" "I am feeling suicidal" st0).2

/-- The escalated session record of `stEsc`. -/
def escSession : Session := (getKey "s" stEsc.sessions).getD fallbackSession

/-- `st0` after a full (all stages parse-degraded) pipeline run. -/
def stDone : Orch := (completeIntake envNone "s" "Nevada" st0).2

/-- The completed session record of `stDone`. -/
def doneSession : Session := (getKey "s" stDone.sessions).getD fallbackSession

/-- A collaborator whose lead-scoring reply parses to the JSON object
`\x7b"rating": "COLD"\x7d` and whose other replies are prose. -/
def envCold : Env :=
  { gen := fun n => if n = 1 then "\x7b\"rating\": \"COLD\"\x7d" else "prose",
    loads := fun s =>
      if s = "\x7b\"rating\": \"COLD\"\x7d" then some (.vDict [("rating", .vStr "COLD")])
      else none,
    now := "T0" }

/-- Session whose pipeline run will score COLD. -/
def stCold : Orch := (startSession envCold "c" "Hi, I tripped over a rug" initOrch).2

/-- A collaborator whose lead-scoring reply is the valid JSON text `[]` — an
array, not the expected object shape. -/
def envArr : Env :=
  { gen := fun n => if n = 1 then "[]" else "prose",
    loads := fun s => if s = "[]" then some (.vList []) else none,
    now := "T0" }

/-- Session whose pipeline run meets the JSON-array scoring reply. -/
def stArr : Orch := (startSession envArr "a" "Hi, I fell in a store" initOrch).2

/-- Deterministic two-reply collaborator for the restart counterexample. -/
def envTwo : Env :=
  { gen := fun n => if n = 0 then "reply0" else "reply1",
    loads := fun _ => none, now := "T0" }

/-- A session started twice under the same id (English both times). -/
def stTwice : Orch :=
  (startSession envTwo "r" "Hello again"
    ((startSession envTwo "r" "Hello there" initOrch).2)).2

/-- The scoring-stage fallback dict `{'error': 'Failed to parse', 'raw': raw}`. -/
def parseFailScore (raw : String) : Val :=
  .vDict [("error", .vStr "Failed to parse"), ("raw", .vStr raw)]

/-- The WARM follow-up cadence (the default branch when the rating is the
degraded parse-failure dict). -/
def warmSeq : List SeqEntry :=
  [⟨1, 24, "email"⟩, ⟨2, 72, "sms"⟩, ⟨3, 168, "email"⟩, ⟨4, 336, "email"⟩]

/-- The stored session of the shared start fixture. -/
def sess0 : Session := (getKey "s" st0.sessions).getD fallbackSession

def c4Run : Except PyErr Val × Orch := completeIntake envNone "s" "Nevada" st0

def c4Results : Val := match c4Run.1 with | .ok v => v | .error _ => .vNull

def c4Ls : Val := (vGet? c4Results "lead_score").getD .vNull

def c4R : Val :=
  match pyGetD c4Ls "rating" (.vStr "WARM") with | .ok v => v | .error _ => .vNull

/-! ## Occurrence lemmas for the escalation-gate text -/

/-- Text already containing the needle keeps containing it as the
user-message scan appends more text. -/
theorem foldl_contains_of_acc {t : String} (conv : List Msg) :
    ∀ {acc : String}, strContains acc t = true →
    strContains (conv.foldl
      (fun acc m => if m.role = "user" then acc ++ " " ++ sLower m.content else acc)
      acc) t = true := by
  induction conv with
  | nil => intro acc h; exact h
  | cons m rest ih =>
    intro acc h
    simp only [List.foldl]
    by_cases hr : m.role = "user"
    · rw [if_pos hr]
      exact ih (strContains_append_left (strContains_append_left h))
    · rw [if_neg hr]
      exact ih h

/-- A needle occurring in some user message of the history occurs in the
accumulated scan text. -/
theorem foldl_contains_of_user {t : String} (m : Msg) (hrole : m.role = "user")
    (h : strContains (sLower m.content) t = true) :
    ∀ (conv : List Msg) (acc : String), m ∈ conv →
    strContains (conv.foldl
      (fun acc m => if m.role = "user" then acc ++ " " ++ sLower m.content else acc)
      acc) t = true := by
  intro conv
  induction conv with
  | nil => intro acc hm; exact absurd hm (List.not_mem_nil m)
  | cons m' rest ih =>
    intro acc hm
    simp only [List.foldl]
    rcases List.mem_cons.mp hm with hEq | hm'
    · subst hEq
      rw [if_pos hrole]
      exact foldl_contains_of_acc rest (strContains_append_right h)
    · exact ih _ hm'

/-! ## Claim theorems -/

/-- C2: for every session id not present in the store and every jurisdiction
argument, `complete_intake` fails with the `Session not found` precondition
error and mutates no state — the store (with every stored session, the
intake histories, the slot table and the call counter) is returned
unchanged. -/
theorem c2_unknown_session_no_mutation (env : Env) (st : Orch) (sid jur : String)
    (h : getKey sid st.sessions = none) :
    completeIntake env sid jur st = (.ok sessionNotFound, st) := by
  unfold completeIntake
  simp [h]

/-- C2 witness: the unknown-session theorem instantiated on the empty
store. -/
theorem c2_witness :
    getKey "missing" initOrch.sessions = none ∧
    completeIntake envNone "missing" "Nevada" initOrch = (.ok sessionNotFound, initOrch) :=
  ⟨rfl, c2_unknown_session_no_mutation envNone initOrch "missing" "Nevada" rfl⟩

/-- C7: the language classifier returns SPANISH exactly when at least two
words of the fixed Spanish list occur (case-insensitively, as substrings) in
the input — the list has no duplicates, so the filter length counts distinct
words — and ENGLISH otherwise; including the two quoted examples.  The
classifier is a pure function of the text (determinism and absence of side
effects are visible from its type: no `M`, no `Env`). -/
theorem c7_language_classifier :
    (∀ t : String, detectLanguage t = "spanish" ↔
        2 ≤ (spanishWords.filter fun w => strContains (sLower t) w).length) ∧
    spanishWords.Nodup ∧
    detectLanguage "Hola, necesito ayuda con un accidente" = "spanish" ∧
    detectLanguage "Hi, I need help" = "english" := by
  refine ⟨fun t => ?_, by decide, rfl, rfl⟩
  unfold detectLanguage spanishWordCount
  by_cases h : 2 ≤ (spanishWords.filter fun w => strContains (sLower t) w).length
  · simp [h]
  · simp [h]

/-- C8: whenever the (dict-shaped) lead score carries rating HOT, the
deterministically derived follow-up sequence is exactly four entries at
1h/24h/72h/168h on channels sms/email/sms/email, in that order.  No
external call is involved: `generateSequence` does not touch `M` or the
generation oracle. -/
theorem c8_hot_followup_sequence (lead_score : Val) (client_info : List (String × Val))
    (h : pyGetD lead_score "rating" (.vStr "WARM") = .ok (.vStr "HOT")) :
    generateSequence lead_score client_info =
      .ok [⟨1, 1, "sms"⟩, ⟨2, 24, "email"⟩, ⟨3, 72, "sms"⟩, ⟨4, 168, "email"⟩] := by
  unfold generateSequence
  rw [h]
  rfl

/-- C8 witness: the HOT-cadence theorem applied to a concrete HOT score. -/
theorem c8_witness :
    pyGetD (Val.vDict [("rating", Val.vStr "HOT")]) "rating" (Val.vStr "WARM") =
      .ok (.vStr "HOT") ∧
    generateSequence (Val.vDict [("rating", Val.vStr "HOT")]) [] =
      .ok [⟨1, 1, "sms"⟩, ⟨2, 24, "email"⟩, ⟨3, 72, "sms"⟩, ⟨4, 168, "email"⟩] :=
  ⟨rfl, c8_hot_followup_sequence (Val.vDict [("rating", Val.vStr "HOT")]) [] rfl⟩

/-- C6 counterexample: an input whose history contains `suicidal` — in an
ASSISTANT-role turn — is not escalated: the gate scans only the current
message and prior USER-role messages, so the claim as stated (any occurrence
anywhere in the input) is false. -/
theorem c6_counterexample :
    strContains (sLower ("hello" ++ " " ++ "Are you feeling suicidal?")) "suicidal" = true ∧
    checkImmediateEscalation "hello" [⟨"assistant", "Are you feeling suicidal?"⟩] =
      .vDict [("escalation_needed", .vBool false)] :=
  ⟨rfl, rfl⟩

/-- C6 (amended): for every input in which `suicidal` occurs
case-insensitively in the current message or in a prior USER-role message of
the history, the gate returns an IMMEDIATE escalation decision with urgency
immediate, regardless of all other content. -/
theorem c6_user_suicidal_immediate (msg : String) (conv : List Msg)
    (h : strContains (sLower msg) "suicidal" = true ∨
         ∃ m, m ∈ conv ∧ m.role = "user" ∧
           strContains (sLower m.content) "suicidal" = true) :
    vGet? (checkImmediateEscalation msg conv) "escalation_needed" = some (.vBool true) ∧
    vGet? (checkImmediateEscalation msg conv) "escalation_type" = some (.vStr "immediate") ∧
    vGet? (checkImmediateEscalation msg conv) "urgency" = some (.vStr "immediate") := by
  have hall : strContains (escalationText msg conv) "suicidal" = true := by
    rcases h with h | ⟨m, hm, hrole, hc⟩
    · exact foldl_contains_of_acc conv h
    · exact foldl_contains_of_user m hrole hc conv _ hm
  unfold checkImmediateEscalation
  rcases hf : immediateEscalationTriggers.find?
      (fun t => strContains (escalationText msg conv) t) with _ | t
  · exfalso
    have hnone := List.find?_eq_none.mp hf "suicidal" (by decide)
    simp only [hall] at hnone
    exact hnone trivial
  · simp only [hf]
    simp [immediateDecision, vGet?, getKey]

/-- C6 witness: the amended theorem instantiated on a message carrying the
trigger in upper case with empty history. -/
theorem c6_witness :
    strContains (sLower "I feel SUICIDAL today") "suicidal" = true ∧
    vGet? (checkImmediateEscalation "I feel SUICIDAL today" []) "escalation_needed" =
      some (.vBool true) ∧
    vGet? (checkImmediateEscalation "I feel SUICIDAL today" []) "escalation_type" =
      some (.vStr "immediate") ∧
    vGet? (checkImmediateEscalation "I feel SUICIDAL today" []) "urgency" =
      some (.vStr "immediate") :=
  ⟨rfl,
   (c6_user_suicidal_immediate "I feel SUICIDAL today" [] (Or.inl rfl)).1,
   (c6_user_suicidal_immediate "I feel SUICIDAL today" [] (Or.inl rfl)).2.1,
   (c6_user_suicidal_immediate "I feel SUICIDAL today" [] (Or.inl rfl)).2.2⟩

/-- C10: `continue_session` does not read `status` — but the claimed normal
handling of a no-trigger message on a pre-pipeline session is impossible:
`session.get('lead_score', {})` yields `None` (the key is present with
value `None`), and `_determine_routing` raises `AttributeError` on
`None.get('rating', 'WARM')`.  At the concrete failing input below the
session is ACTIVE with `lead_score = None`, the message (with the stored
user history) matches no trigger, and the call raises instead of invoking a
conversational Role; no state is mutated.  The same slip contradicts the
source's own `__main__` demo, which drives exactly this path. -/
theorem c10_continue_crashes_on_none_lead_score :
    statusOf st0 "s" = "active" ∧
    leadScoreOf st0 "s" = .vNull ∧
    checkImmediateEscalation "My name is Jo Smith" (convOf st0 "s") =
      .vDict [("escalation_needed", .vBool false)] ∧
    continueSession envNone "s" "My name is Jo Smith" st0 =
      (.error .attributeError, st0) :=
  ⟨rfl, rfl, rfl, rfl⟩

/-- C1 counterexample: a scoring reply that is valid JSON but not an object
(the text `[]`) is "not parseable as the expected structured shape", yet the
stage does not degrade — the uncaught `AttributeError` from
`score_data.get('rating')` aborts the whole pipeline at stage 1: the call
errors, the session is left in `processing`, and `lead_score` is never
populated. -/
theorem c1_counterexample :
    envArr.loads (sTrim (stripMarkdown (envArr.gen stArr.genCount))) = some (.vList []) ∧
    (completeIntake envArr "a" "Nevada" stArr).1 = .error .attributeError ∧
    statusOf (completeIntake envArr "a" "Nevada" stArr).2 "a" = "processing" ∧
    leadScoreOf (completeIntake envArr "a" "Nevada" stArr).2 "a" = .vNull :=
  ⟨rfl, rfl, rfl, rfl⟩

/-- C3 counterexample: a session escalated through the immediate path (its
stored handoff decision carries `escalation_type = 'immediate'`) is driven
to status `completed` by a subsequent `complete_intake` — ESCALATED is not
terminal. -/
theorem c3_counterexample :
    statusOf stEsc "s" = "escalated" ∧
    vGet? escSession.handoff "escalation_type" = some (.vStr "immediate") ∧
    statusOf (completeIntake envNone "s" "Nevada" stEsc).2 "s" = "completed" :=
  ⟨rfl, rfl, rfl⟩

/-- C4 counterexample: on a session whose computed `lead_score.rating` is
COLD, `complete_intake` does not record scheduling as "skipped" — it raises
`AttributeError` at the routing stage's log line (`route_to` is `None` for a
COLD decision) and produces no result at all. -/
theorem c4_counterexample :
    pyGetD (leadScoreOf (completeIntake envCold "c" "Nevada" stCold).2 "c")
      "rating" (.vStr "WARM") = .ok (.vStr "COLD") ∧
    (completeIntake envCold "c" "Nevada" stCold).1 = .error .attributeError :=
  ⟨rfl, rfl⟩

/-- C5 counterexample: on a known session, a message that triggers immediate
escalation is returned escalated but the submitted user message (and any
reply) is NOT appended: the conversation is exactly the two turns it held
before the call. -/
theorem c5_counterexample :
    (continueSession envNone "s" "I am feeling suicidal" st0).1 =
      .ok (.vDict [
        ("response", .vStr "I understand this is a serious situation. Let me connect you with someone who can help right away. Please stay on the line."),
        ("escalated", .vBool true),
        ("urgency", .vStr "immediate")]) ∧
    convOf stEsc "s" = convOf st0 "s" ∧
    (convOf st0 "s").length = 2 :=
  ⟨rfl, rfl, rfl⟩

/-- C9 counterexample: starting a session twice under the same id (English
path) does NOT yield a fresh conversation — the conversational Role's
private history survives the session reset, so the new record's
conversation re-contains both turns of the discarded session. -/
theorem c9_counterexample :
    convOf stTwice "r" =
      [⟨"user", "Hello there"⟩, ⟨"assistant", "reply0"⟩,
       ⟨"user", "Hello again"⟩, ⟨"assistant", "reply1"⟩] ∧
    statusOf stTwice "r" = "active" ∧
    leadScoreOf stTwice "r" = .vNull :=
  ⟨rfl, rfl, rfl⟩


theorem leadScorer_state (env : Env) (c : List Msg) (ci : List (String × Val)) (s : Orch) :
    (leadScorerProcess env c ci s).2 = { s with genCount := s.genCount + 1 } := by
  unfold leadScorerProcess
  simp only [bind_apply, callClaude_apply, lift_apply, pure_apply]
  cases hv : env.loads (sTrim (stripMarkdown (env.gen s.genCount))) with
  | none => simp [hv]
  | some v =>
    simp only [hv]
    cases hr : pyGet v "rating" with
    | error e => simp [hr]
    | ok x =>
      simp only [hr, bind_apply, lift_apply, pure_apply]
      cases hsc : pyGet v "score" with
      | error e => simp [hsc]
      | ok y => simp [hsc]

theorem research_sessions (env : Env) (ls : Val) (c : List Msg)
    (ci : List (String × Val)) (state rt : String) (s : Orch) :
    (researchProcess env ls c ci state rt s).2.sessions = s.sessions := by
  unfold researchProcess fullResearch researchLiability
  simp only [bind_apply, callClaude_apply, lift_apply, pure_apply]
  cases hct : pyGetD ls "case_type" (.vStr "Personal Injury") with
  | error e => simp [hct]
  | ok ct =>
    simp only [hct]
    cases hkf : pyGetD ls "key_factors" (.vList []) with
    | error e => simp [hkf]
    | ok kf =>
      simp only [hkf, bind_apply, lift_apply, pure_apply]
      cases hctx : researchBuildCaseContext ct kf c state with
      | error e => simp [hctx]
      | ok ctx =>
        simp only [hctx, bind_apply, lift_apply, pure_apply]
        by_cases h1 : rt = "statute_only"
        · simp only [h1, if_true]
          cases hrs : researchStatute ct state with
          | error e => simp [hrs]
          | ok v => simp [hrs]
        · by_cases h2 : rt = "liability_only"
          · simp only [h1, h2, if_true, if_false, bind_apply, callClaude_apply,
              lift_apply, pure_apply]
            cases hv : env.loads (sTrim (stripMarkdown (env.gen s.genCount))) <;>
              simp [hv]
          · simp only [h1, h2, if_false, bind_apply, callClaude_apply,
              lift_apply, pure_apply]
            cases hv : env.loads (sTrim (stripMarkdown (env.gen s.genCount))) <;>
              simp [hv]

theorem followup_sessions (env : Env) (ls : Val) (c : List Msg)
    (ci : List (String × Val)) (stg : Nat) (ch : String) (s : Orch) :
    (followupProcess env ls c ci stg ch s).2.sessions = s.sessions := by
  unfold followupProcess
  simp only [bind_apply, callClaude_apply, lift_apply, pure_apply]
  cases hr : pyGetD ls "rating" (.vStr "WARM") with
  | error e => simp [hr]
  | ok r =>
    simp only [hr]
    cases hctx : followupBuildContext ls c ci stg with
    | error e => simp [hctx]
    | ok ctx =>
      simp only [hctx, bind_apply, callClaude_apply, lift_apply, pure_apply]
      cases hv : env.loads (sTrim (stripMarkdown (env.gen s.genCount))) <;> simp [hv]

theorem doc_sessions (env : Env) (ls : Val) (ci : List (String × Val))
    (action : String) (sidv : Val) (s : Orch) :
    (docCollectorProcess env ls ci action sidv s).2.sessions = s.sessions := by
  unfold docCollectorProcess generateDocumentRequest
  simp only [bind_apply, callClaude_apply, lift_apply, pure_apply]
  cases hct : pyGetD ls "case_type" (.vStr "Personal Injury") with
  | error e => simp [hct]
  | ok ct =>
    simp only [hct]
    by_cases h1 : action = "request_documents"
    · simp only [h1, if_true, bind_apply, lift_apply, pure_apply]
      cases hr : pyGetD ls "rating" (.vStr "WARM") with
      | error e => simp [hr]
      | ok r =>
        simp only [hr, bind_apply, lift_apply, pure_apply]
        cases hkf : pyGetD ls "key_factors" (.vList []) with
        | error e => simp [hkf]
        | ok kf =>
          simp only [hkf, bind_apply, lift_apply, pure_apply]
          cases hj : pyJoin ", " kf with
          | error e => simp [hj]
          | ok kfj =>
            simp only [hj, bind_apply, callClaude_apply, lift_apply, pure_apply]
            cases hv : env.loads (sTrim (stripMarkdown (env.gen s.genCount))) <;>
              simp [hv]
    · by_cases h2 : action = "send_forms"
      · simp only [h1, h2, if_true, if_false, bind_apply, lift_apply, pure_apply]
        cases hf : getRequiredForms ct <;> simp [hf]
      · by_cases h3 : action = "check_status" <;> simp [h1, h2, h3]

theorem sched_sessions (env : Env) (action : String) (ls : Val)
    (ci : List (String × Val)) (sel : Val) (ct : String) (s : Orch) :
    (schedulerProcess env action ls ci sel ct s).2.sessions = s.sessions := by
  unfold schedulerProcess bookAppointment
  by_cases h1 : action = "check_availability"
  · simp [h1]
  · rw [if_neg h1]
    by_cases h2 : action = "book"
    · rw [if_pos h2]
      simp only [bind_apply, get_apply, lift_apply, pure_apply]
      by_cases hempty : s.schedSlots.isEmpty = true
      · rw [if_pos hempty]
        rfl
      · rw [if_neg hempty]
        simp only [bind_apply, lift_apply, pure_apply]
        cases hd : pyGet sel "date" with
        | error e => simp [hd]
        | ok dv =>
          simp only [hd, bind_apply, lift_apply, pure_apply]
          cases ht : pyGet sel "time" with
          | error e => simp [ht]
          | ok tv =>
            simp only [ht, bind_apply, lift_apply, pure_apply]
            cases hb : (bookSlotIn dv tv s.schedSlots).2 with
            | none => simp [hb]
            | some slot =>
              simp only [hb, bind_apply, lift_apply, pure_apply, set_apply,
                get_apply]
              cases hcv : pyGetD ls "case_type" (.vStr "General") with
              | error e => simp [hcv]
              | ok cv =>
                simp only [hcv, bind_apply, lift_apply, pure_apply]
                cases hp : parseDate slot.date <;> simp [hp]
    · rw [if_neg h2]
      by_cases h3 : action = "suggest_times"
      · simp [h3]
      · simp [h3]

theorem leadScorer_parseFail (env : Env) (hL : ∀ x, env.loads x = none)
    (c : List Msg) (ci : List (String × Val)) (s : Orch) :
    leadScorerProcess env c ci s =
      (.ok (.vDict [("lead_score",
        parseFailScore (stripMarkdown (env.gen s.genCount)))]),
       { s with genCount := s.genCount + 1 }) := by
  unfold leadScorerProcess
  simp [bind_apply, callClaude_apply, lift_apply, pure_apply, hL, parseFailScore]

theorem research_parseFail (env : Env) (hL : ∀ x, env.loads x = none)
    (raw jur : String) (c : List Msg) (ci : List (String × Val)) (s : Orch) :
    researchProcess env (parseFailScore raw) c ci jur "full" s =
      (.ok (.vDict [("research", .vDict [("research_summary",
        .vStr (stripMarkdown (env.gen s.genCount)))])]),
       { s with genCount := s.genCount + 1 }) := by
  unfold researchProcess researchBuildCaseContext fullResearch
  simp [bind_apply, callClaude_apply, lift_apply, pure_apply, hL, parseFailScore,
    pyGetD, getKey, pyJoin, joinStrings, pyIter]
  try rfl

theorem followup_parseFail (env : Env) (hL : ∀ x, env.loads x = none)
    (raw ch : String) (stage : Nat) (c : List Msg) (ci : List (String × Val))
    (s : Orch) :
    followupProcess env (parseFailScore raw) c ci stage ch s =
      (.ok (.vDict [("follow_up",
        .vDict [("body", .vStr (stripMarkdown (env.gen s.genCount))),
                ("message_type", .vStr ch)])]),
       { s with genCount := s.genCount + 1 }) := by
  unfold followupProcess followupBuildContext
  simp [bind_apply, callClaude_apply, lift_apply, pure_apply, hL, parseFailScore,
    pyGetD, getKey, pyJoin, pyTruthy, joinStrings, pyIter]
  try rfl

theorem doc_parseFail (env : Env) (hL : ∀ x, env.loads x = none)
    (raw : String) (ci : List (String × Val)) (sidv : Val) (s : Orch) :
    docCollectorProcess env (parseFailScore raw) ci "request_documents" sidv s =
      (.ok (.vDict [("document_request",
        .vDict [("message_to_client", .vStr (stripMarkdown (env.gen s.genCount)))])]),
       { s with genCount := s.genCount + 1 }) := by
  unfold docCollectorProcess generateDocumentRequest
  simp [bind_apply, callClaude_apply, lift_apply, pure_apply, hL, parseFailScore,
    pyGetD, getKey, pyJoin, pyIter]
  try rfl

theorem genSeq_parseFail (raw : String) (ci : List (String × Val)) :
    generateSequence (parseFailScore raw) ci = .ok warmSeq := rfl

theorem handoff_parseFail_shape (raw : String) (c : List Msg)
    (ci : List (String × Val)) :
    ∃ fs rfs, handoffProcess "" c (parseFailScore raw) ci = .ok (.vDict fs) ∧
      (getKey "route_to" fs).getD (.vDict []) = .vDict rfs := by
  cases hf : immediateEscalationTriggers.find? (fun t => strContains (escalationText "" c) t) with
  | some t =>
    have h1 : handoffProcess "" c (parseFailScore raw) ci = .ok (immediateDecision t) := by
      unfold handoffProcess checkImmediateEscalation
      simp [hf, immediateDecision, dictIndex, getKey, pyTruthy]
      try rfl
    exact ⟨_, _, h1, rfl⟩
  | none =>
    have h1 : handoffProcess "" c (parseFailScore raw) ci =
        determineRouting (parseFailScore raw) c ci := by
      unfold handoffProcess checkImmediateEscalation
      simp [hf, dictIndex, getKey, pyTruthy]
      try rfl
    exact ⟨_, _, h1, rfl⟩

theorem generateSummary_no_error (s : Session) (raw : String) (e : PyErr)
    (h : s.lead_score = parseFailScore raw) : generateSummary s ≠ .error e := by
  unfold generateSummary
  rw [h]
  intro hc
  exact Except.noConfusion hc

theorem createHandoffSummary_no_error (raw : String) (c : List Msg)
    (ci : List (String × Val)) (e : PyErr) :
    createHandoffSummary (parseFailScore raw) c ci ≠ .error e := by
  unfold createHandoffSummary
  intro hc
  exact Except.noConfusion hc


theorem pf_rating (raw : String) :
    pyGet (parseFailScore raw) "rating" = .ok .vNull := rfl

theorem pf_score (raw : String) :
    pyGet (parseFailScore raw) "score" = .ok .vNull := rfl

theorem pf_ratingD (raw : String) (d : Val) :
    pyGetD (parseFailScore raw) "rating" d = .ok d := rfl

theorem firstChannel_warm : firstChannel warmSeq = "email" := rfl

/-- C3: amended universal form — a session whose stored status is "escalated"
keeps that status across any further continue_session turn. -/
theorem c3_escalated_stable (env : Env) (st : Orch) (sid msg : String)
    (s : Session) (hs : getKey sid st.sessions = some s)
    (hesc : s.status = "escalated") :
    statusOf (continueSession env sid msg st).2 sid = "escalated" := by
  unfold continueSession
  simp only [bind_apply, get_apply, hs]
  rcases hh : handoffProcess msg s.conversation s.lead_score s.client_info with e | hc
  · simp [hh, statusOf, hs, hesc]
  · simp only [hh, lift_apply]
    rcases het : pyGet hc "escalation_type" with e | et
    · simp [statusOf, hs, hesc]
    · simp only []
      cases hpe : pyEq et (.vStr "immediate") with
      | true =>
        simp [hpe, modifySession, hs, statusOf]
        rcases hcm : dictIndex hc "client_message" with e | cm <;>
          simp [statusOf, getKey_setKey_same]
      | false =>
        by_cases hl : s.language = "spanish"
        · simp [hpe, hl, spanishProcess, modifySession, readSession, hs, statusOf,
            getKey_setKey_same, hesc]
        · simp [hpe, hl, intakeProcess, modifySession, readSession, hs, statusOf,
            getKey_setKey_same, hesc]

/-- Witness for the escalated-stability theorem at the escalated fixture. -/
theorem c3_witness :
    statusOf (continueSession envNone "s" "hello there" stEsc).2 "s" = "escalated" :=
  c3_escalated_stable envNone stEsc "s" "hello there" escSession rfl rfl

/-- C9: amended universal form — start_session on an existing id overwrites the
stored session record: status active, null lead score, empty client info, null
handoff and research, single-agent agents_used, and a conversation rebuilt from
the language pipeline rather than the overwritten record. -/
theorem c9_start_overwrites (env : Env) (st : Orch) (sid msg : String) :
    statusOf (startSession env sid msg st).2 sid = "active" ∧
    leadScoreOf (startSession env sid msg st).2 sid = .vNull ∧
    ((getKey sid ((startSession env sid msg st).2).sessions).map Session.client_info).getD
      [("marker", .vNull)] = [] ∧
    ((getKey sid ((startSession env sid msg st).2).sessions).map Session.handoff).getD
      (.vStr "absent") = .vNull ∧
    ((getKey sid ((startSession env sid msg st).2).sessions).map Session.research).getD
      (.vStr "absent") = .vNull ∧
    agentsOf (startSession env sid msg st).2 sid =
      [if detectLanguage msg = "english" then "intake" else "spanish"] ∧
    convOf (startSession env sid msg st).2 sid =
      (if detectLanguage msg = "spanish" then
        [⟨"user", msg⟩, ⟨"assistant", env.gen st.genCount⟩]
      else
        ((getKey sid st.intakeConvs).getD []) ++
          [⟨"user", msg⟩, ⟨"assistant", env.gen st.genCount⟩]) := by
  unfold startSession
  by_cases hl : detectLanguage msg = "spanish"
  · simp [hl, newSession, spanishProcess, modifySession, readSession,
      getKey_setKey_same, statusOf, leadScoreOf, agentsOf, convOf]
  · simp [hl, newSession, intakeProcess, modifySession, readSession,
      getKey_setKey_same, statusOf, leadScoreOf, agentsOf, convOf]

/-- C5: amended universal form — the stored conversation only ever grows by a
suffix in continue_session; on a successful non-escalated turn it grows by
exactly the user message and the returned assistant reply; on an escalated or
errored turn it is unchanged (the user message is dropped). -/
theorem c5_append_discipline (env : Env) (st : Orch) (sid msg : String)
    (s : Session) (hs : getKey sid st.sessions = some s)
    (hsync : s.language ≠ "spanish" →
      (getKey sid st.intakeConvs).getD [] = s.conversation) :
    (∃ t, convOf (continueSession env sid msg st).2 sid = s.conversation ++ t) ∧
    (∀ v, (continueSession env sid msg st).1 = .ok v →
        vGet? v "escalated" = some (.vBool true) →
        convOf (continueSession env sid msg st).2 sid = s.conversation) ∧
    (∀ v r, (continueSession env sid msg st).1 = .ok v →
        vGet? v "escalated" = none →
        vGet? v "response" = some (.vStr r) →
        convOf (continueSession env sid msg st).2 sid =
          s.conversation ++ [⟨"user", msg⟩, ⟨"assistant", r⟩]) ∧
    (∀ e, (continueSession env sid msg st).1 = .error e →
        convOf (continueSession env sid msg st).2 sid = s.conversation) := by
  unfold continueSession
  simp only [bind_apply, get_apply, hs]
  rcases hh : handoffProcess msg s.conversation s.lead_score s.client_info with e | hc
  · simp only [hh, lift_apply]
    refine ⟨⟨[], by simp [convOf, hs]⟩, ?_, ?_, ?_⟩
    · intro v hv _; simp at hv
    · intro v r hv _ _; simp at hv
    · intro e' _; simp [convOf, hs]
  · simp only [hh, lift_apply]
    rcases het : pyGet hc "escalation_type" with e | et
    · refine ⟨⟨[], by simp [convOf, hs]⟩, ?_, ?_, ?_⟩
      · intro v hv _; simp at hv
      · intro v r hv _ _; simp at hv
      · intro e' _; simp [convOf, hs]
    · cases hpe : pyEq et (.vStr "immediate") with
      | true =>
        simp only [hpe, if_true, modifySession_apply, hs, bind_apply, lift_apply,
          pure_apply]
        rcases hcm : dictIndex hc "client_message" with e | cm
        · refine ⟨⟨[], by simp [convOf, getKey_setKey_same]⟩, ?_, ?_, ?_⟩
          · intro v hv _; simp at hv
          · intro v r hv _ _; simp at hv
          · intro e' _; simp [convOf, getKey_setKey_same]
        · refine ⟨⟨[], by simp [convOf, getKey_setKey_same]⟩, ?_, ?_, ?_⟩
          · intro v _ _; simp [convOf, getKey_setKey_same]
          · intro v r hv hesc _
            injection hv with hv
            subst hv
            simp [vGet?, getKey] at hesc
          · intro e' he; simp at he
      | false =>
        by_cases hl : s.language = "spanish"
        · simp only [hpe, hl, if_true, Bool.false_eq_true, if_false, spanishProcess,
            modifySession_apply, readSession_apply, hs, bind_apply, lift_apply,
            pure_apply, callClaude_apply, get_apply, set_apply, getKey_setKey_same]
          refine ⟨⟨[⟨"user", msg⟩, ⟨"assistant", env.gen st.genCount⟩], ?_⟩, ?_, ?_, ?_⟩
          · simp [convOf, getKey_setKey_same]
          · intro v hv hesc
            injection hv with hv
            subst hv
            simp [vGet?, getKey] at hesc
          · intro v r hv _ hresp
            injection hv with hv
            subst hv
            simp only [vGet?, getKey] at hresp
            simp at hresp
            subst hresp
            simp [convOf, getKey_setKey_same]
          · intro e' he; simp at he
        · simp only [hpe, hl, Bool.false_eq_true, if_false, intakeProcess,
            modifySession_apply, readSession_apply, hs, bind_apply, lift_apply,
            pure_apply, callClaude_apply, get_apply, set_apply, getKey_setKey_same]
          have hsync2 := hsync hl
          refine ⟨⟨[⟨"user", msg⟩, ⟨"assistant", env.gen st.genCount⟩], ?_⟩, ?_, ?_, ?_⟩
          · simp [convOf, getKey_setKey_same, hsync2]
          · intro v hv hesc
            injection hv with hv
            subst hv
            simp [vGet?, getKey] at hesc
          · intro v r hv _ hresp
            injection hv with hv
            subst hv
            simp only [vGet?, getKey] at hresp
            simp at hresp
            subst hresp
            simp [convOf, getKey_setKey_same, hsync2]
          · intro e' he; simp at he

/-- Witness for the append-discipline theorem at the shared start fixture. -/
theorem c5_witness :
    (∃ t, convOf (continueSession envNone "s" "Thanks so much" st0).2 "s" =
      sess0.conversation ++ t) ∧
    (∀ v, (continueSession envNone "s" "Thanks so much" st0).1 = .ok v →
        vGet? v "escalated" = some (.vBool true) →
        convOf (continueSession envNone "s" "Thanks so much" st0).2 "s" =
          sess0.conversation) ∧
    (∀ v r, (continueSession envNone "s" "Thanks so much" st0).1 = .ok v →
        vGet? v "escalated" = none →
        vGet? v "response" = some (.vStr r) →
        convOf (continueSession envNone "s" "Thanks so much" st0).2 "s" =
          sess0.conversation ++ [⟨"user", "Thanks so much"⟩, ⟨"assistant", r⟩]) ∧
    (∀ e, (continueSession envNone "s" "Thanks so much" st0).1 = .error e →
        convOf (continueSession envNone "s" "Thanks so much" st0).2 "s" =
          sess0.conversation) :=
  c5_append_discipline envNone st0 "s" "Thanks so much" sess0 rfl (fun _ => rfl)

/-- C4: amended universal form — whenever complete_intake returns a result whose
lead_score rating (read with the WARM default, as stage 6 reads it) is not HOT,
the scheduling field of the result is the null value, not the string "skipped". -/
theorem c4_walk (env : Env) (st st' : Orch) (sid jur : String)
    (results ls r : Val)
    (h : completeIntake env sid jur st = (.ok results, st'))
    (hls : vGet? results "lead_score" = some ls)
    (hr : pyGetD ls "rating" (.vStr "WARM") = .ok r)
    (hnh : pyEq r (.vStr "HOT") = false) :
    vGet? results "scheduling" = some .vNull := by
  unfold completeIntake at h
  simp only [bind_apply, get_apply] at h
  cases hk : getKey sid st.sessions with
  | none =>
    simp only [hk, pure_apply] at h
    rw [Prod.mk.injEq] at h
    obtain ⟨h1, h2⟩ := h
    injection h1 with h1
    subst h1
    simp [sessionNotFound, vGet?, getKey] at hls
  | some s0 =>
    simp only [hk] at h
    unfold runPipeline at h
    try simp only [hk, bind_apply, modifySession_apply, readSession_apply,
      lift_apply, pure_apply, get_apply, set_apply, getKey_setKey_same,
      leadScorer_state, research_sessions, followup_sessions, doc_sessions,
      sched_sessions] at h
    split at h
    case h_2 => exfalso; rw [Prod.mk.injEq] at h; exact absurd h.1 (by simp)
    try simp only [hk, bind_apply, modifySession_apply, readSession_apply,
      lift_apply, pure_apply, get_apply, set_apply, getKey_setKey_same,
      leadScorer_state, research_sessions, followup_sessions, doc_sessions,
      sched_sessions] at h
    split at h
    case h_2 => exfalso; rw [Prod.mk.injEq] at h; exact absurd h.1 (by simp)
    try simp only [hk, bind_apply, modifySession_apply, readSession_apply,
      lift_apply, pure_apply, get_apply, set_apply, getKey_setKey_same,
      leadScorer_state, research_sessions, followup_sessions, doc_sessions,
      sched_sessions] at h
    split at h
    case h_2 => exfalso; rw [Prod.mk.injEq] at h; exact absurd h.1 (by simp)
    try simp only [hk, bind_apply, modifySession_apply, readSession_apply,
      lift_apply, pure_apply, get_apply, set_apply, getKey_setKey_same,
      leadScorer_state, research_sessions, followup_sessions, doc_sessions,
      sched_sessions] at h
    split at h
    case h_2 => exfalso; rw [Prod.mk.injEq] at h; exact absurd h.1 (by simp)
    try simp only [hk, bind_apply, modifySession_apply, readSession_apply,
      lift_apply, pure_apply, get_apply, set_apply, getKey_setKey_same,
      leadScorer_state, research_sessions, followup_sessions, doc_sessions,
      sched_sessions] at h
    split at h
    case h_2 => exfalso; rw [Prod.mk.injEq] at h; exact absurd h.1 (by simp)
    try simp only [hk, bind_apply, modifySession_apply, readSession_apply,
      lift_apply, pure_apply, get_apply, set_apply, getKey_setKey_same,
      leadScorer_state, research_sessions, followup_sessions, doc_sessions,
      sched_sessions] at h
    split at h
    case h_2 => exfalso; rw [Prod.mk.injEq] at h; exact absurd h.1 (by simp)
    try simp only [hk, bind_apply, modifySession_apply, readSession_apply,
      lift_apply, pure_apply, get_apply, set_apply, getKey_setKey_same,
      leadScorer_state, research_sessions, followup_sessions, doc_sessions,
      sched_sessions] at h
    split at h
    case h_2 => exfalso; rw [Prod.mk.injEq] at h; exact absurd h.1 (by simp)
    try simp only [hk, bind_apply, modifySession_apply, readSession_apply,
      lift_apply, pure_apply, get_apply, set_apply, getKey_setKey_same,
      leadScorer_state, research_sessions, followup_sessions, doc_sessions,
      sched_sessions] at h
    split at h
    case h_2 => exfalso; rw [Prod.mk.injEq] at h; exact absurd h.1 (by simp)
    try simp only [hk, bind_apply, modifySession_apply, readSession_apply,
      lift_apply, pure_apply, get_apply, set_apply, getKey_setKey_same,
      leadScorer_state, research_sessions, followup_sessions, doc_sessions,
      sched_sessions] at h
    split at h
    case h_2 => exfalso; rw [Prod.mk.injEq] at h; exact absurd h.1 (by simp)
    try simp only [hk, bind_apply, modifySession_apply, readSession_apply,
      lift_apply, pure_apply, get_apply, set_apply, getKey_setKey_same,
      leadScorer_state, research_sessions, followup_sessions, doc_sessions,
      sched_sessions] at h
    split at h
    case h_2 => exfalso; rw [Prod.mk.injEq] at h; exact absurd h.1 (by simp)
    try simp only [hk, bind_apply, modifySession_apply, readSession_apply,
      lift_apply, pure_apply, get_apply, set_apply, getKey_setKey_same,
      leadScorer_state, research_sessions, followup_sessions, doc_sessions,
      sched_sessions] at h
    split at h
    case h_2 => exfalso; rw [Prod.mk.injEq] at h; exact absurd h.1 (by simp)
    try simp only [hk, bind_apply, modifySession_apply, readSession_apply,
      lift_apply, pure_apply, get_apply, set_apply, getKey_setKey_same,
      leadScorer_state, research_sessions, followup_sessions, doc_sessions,
      sched_sessions] at h
    split at h
    case h_2 => exfalso; rw [Prod.mk.injEq] at h; exact absurd h.1 (by simp)
    try simp only [hk, bind_apply, modifySession_apply, readSession_apply,
      lift_apply, pure_apply, get_apply, set_apply, getKey_setKey_same,
      leadScorer_state, research_sessions, followup_sessions, doc_sessions,
      sched_sessions] at h
    split at h
    case h_2 => exfalso; rw [Prod.mk.injEq] at h; exact absurd h.1 (by simp)
    try simp only [hk, bind_apply, modifySession_apply, readSession_apply,
      lift_apply, pure_apply, get_apply, set_apply, getKey_setKey_same,
      leadScorer_state, research_sessions, followup_sessions, doc_sessions,
      sched_sessions] at h
    split at h
    case h_2 => exfalso; rw [Prod.mk.injEq] at h; exact absurd h.1 (by simp)
    try simp only [hk, bind_apply, modifySession_apply, readSession_apply,
      lift_apply, pure_apply, get_apply, set_apply, getKey_setKey_same,
      leadScorer_state, research_sessions, followup_sessions, doc_sessions,
      sched_sessions] at h
    split at h
    case h_2 => exfalso; rw [Prod.mk.injEq] at h; exact absurd h.1 (by simp)
    try simp only [hk, bind_apply, modifySession_apply, readSession_apply,
      lift_apply, pure_apply, get_apply, set_apply, getKey_setKey_same,
      leadScorer_state, research_sessions, followup_sessions, doc_sessions,
      sched_sessions] at h
    split at h
    case h_2 => exfalso; rw [Prod.mk.injEq] at h; exact absurd h.1 (by simp)
    rename_i xr rat hrat
    try simp only [hk, bind_apply, modifySession_apply, readSession_apply,
      lift_apply, pure_apply, get_apply, set_apply, getKey_setKey_same,
      leadScorer_state, research_sessions, followup_sessions, doc_sessions,
      sched_sessions] at h
    split at h
    case isTrue =>
      rename_i hcond
      try simp only [hk, bind_apply, modifySession_apply, readSession_apply,
        lift_apply, pure_apply, get_apply, set_apply, getKey_setKey_same,
        leadScorer_state, research_sessions, followup_sessions, doc_sessions,
        sched_sessions] at h
      split at h
      case h_2 => exfalso; rw [Prod.mk.injEq] at h; exact absurd h.1 (by simp)
      try simp only [hk, bind_apply, modifySession_apply, readSession_apply,
        lift_apply, pure_apply, get_apply, set_apply, getKey_setKey_same,
        leadScorer_state, research_sessions, followup_sessions, doc_sessions,
        sched_sessions] at h
      split at h
      case h_2 => exfalso; rw [Prod.mk.injEq] at h; exact absurd h.1 (by simp)
      try simp only [hk, bind_apply, modifySession_apply, readSession_apply,
        lift_apply, pure_apply, get_apply, set_apply, getKey_setKey_same,
        leadScorer_state, research_sessions, followup_sessions, doc_sessions,
        sched_sessions] at h
      split at h
      case h_2 => exfalso; rw [Prod.mk.injEq] at h; exact absurd h.1 (by simp)
      rw [Prod.mk.injEq] at h
      obtain ⟨h1, h2⟩ := h
      injection h1 with h1
      subst h1
      simp [vGet?] at hls
      subst hls
      rw [hrat] at hr
      injection hr with hr
      subst hr
      rw [hnh] at hcond
      exact absurd hcond (by simp)
    case isFalse =>
      rename_i hcond
      try simp only [hk, bind_apply, modifySession_apply, readSession_apply,
        lift_apply, pure_apply, get_apply, set_apply, getKey_setKey_same,
        leadScorer_state, research_sessions, followup_sessions, doc_sessions,
        sched_sessions] at h
      split at h
      case h_2 => exfalso; rw [Prod.mk.injEq] at h; exact absurd h.1 (by simp)
      try simp only [hk, bind_apply, modifySession_apply, readSession_apply,
        lift_apply, pure_apply, get_apply, set_apply, getKey_setKey_same,
        leadScorer_state, research_sessions, followup_sessions, doc_sessions,
        sched_sessions] at h
      split at h
      case h_2 => exfalso; rw [Prod.mk.injEq] at h; exact absurd h.1 (by simp)
      rw [Prod.mk.injEq] at h
      obtain ⟨h1, h2⟩ := h
      injection h1 with h1
      subst h1
      simp [vGet?]

/-- Witness for the universal non-HOT scheduling theorem at a concrete run. -/
theorem c4_walk_witness : vGet? c4Results "scheduling" = some .vNull :=
  c4_walk envNone st0 c4Run.2 "s" "Nevada" c4Results c4Ls c4R rfl rfl rfl rfl

/-- C1: amended universal form — with a session in the store and a collaborator
whose output never parses, every generation stage degrades to its specific
wrapping shape (scorer: error/raw pair; research: research_summary; follow-up:
body/message_type; documents: message_to_client), the pipeline completes with
status "completed" and all five pipeline agents recorded, and scheduling is
null. -/
theorem c1_amended (env : Env) (st : Orch) (sid jur : String) (s0 : Session)
    (hk : getKey sid st.sessions = some s0)
    (hL : ∀ x, env.loads x = none) :
    ∃ stF res,
      completeIntake env sid jur st = (.ok (.vDict res), stF) ∧
      getKey "lead_score" res =
        some (parseFailScore (stripMarkdown (env.gen st.genCount))) ∧
      getKey "research" res =
        some (.vDict [("research_summary",
          .vStr (stripMarkdown (env.gen (st.genCount + 1))))]) ∧
      getKey "follow_up" res =
        some (.vDict [("sequence", .vList (warmSeq.map seqEntryToVal)),
          ("first_message", .vDict [
            ("body", .vStr (stripMarkdown (env.gen (st.genCount + 2)))),
            ("message_type", .vStr "email")])]) ∧
      getKey "documents" res =
        some (.vDict [("document_request", .vDict [("message_to_client",
          .vStr (stripMarkdown (env.gen (st.genCount + 3))))])]) ∧
      getKey "scheduling" res = some .vNull ∧
      (∃ t1, getKey "session_summary" res = some (.vStr t1)) ∧
      (∃ t2, getKey "handoff_summary" res = some (.vStr t2)) ∧
      statusOf stF sid = "completed" ∧
      agentsOf stF sid = s0.agents_used ++
        ["lead_scorer", "research", "handoff", "followup", "document_collector"] := by
  obtain ⟨fs, rfs, hh, hrt⟩ := handoff_parseFail_shape
    (stripMarkdown (env.gen st.genCount)) s0.conversation s0.client_info
  have hpe : pyEq (.vStr "WARM") (.vStr "HOT") = false := rfl
  obtain ⟨r, stF, hE⟩ : ∃ r stF, completeIntake env sid jur st = (r, stF) :=
    ⟨_, _, rfl⟩
  have hE2 := hE
  unfold completeIntake at hE
  simp only [bind_apply, get_apply, hk] at hE
  unfold runPipeline at hE
  simp [bind_apply, modifySession_apply, readSession_apply, lift_apply,
    pure_apply, get_apply, set_apply, getKey_setKey_same,
    leadScorer_parseFail env hL, research_parseFail env hL,
    followup_parseFail env hL, doc_parseFail env hL, genSeq_parseFail,
    hh, hrt, hpe, hk, pyGetD, getKey, pf_rating, pf_score, pf_ratingD,
    firstChannel_warm] at hE
  simp [parseFailScore, pyGetD, getKey, hpe, bind_apply, modifySession_apply,
    readSession_apply, lift_apply, pure_apply, getKey_setKey_same] at hE
  split at hE
  case h_2 =>
    rename_i e heq
    exact absurd heq (generateSummary_no_error _ _ e rfl)
  rename_i sum1 hsum1
  split at hE
  case h_2 =>
    rename_i e heq
    exact absurd heq (createHandoffSummary_no_error _ _ _ e)
  rename_i sum2 hsum2
  rw [Prod.mk.injEq] at hE
  obtain ⟨h1, h2⟩ := hE
  subst h1
  subst h2
  refine ⟨_, _, hE2, ?_, ?_, ?_, ?_, ?_, ?_, ?_, ?_, ?_⟩ <;>
    simp [parseFailScore, getKey_setKey_same, getKey_setKey_ne, statusOf,
      agentsOf, getKey, setKey, Nat.add_assoc]

/-- Witness for the degraded-pipeline theorem at the shared fixture run. -/
theorem c1_amended_witness :
    ∃ stF res,
      completeIntake envNone "s" "Nevada" st0 = (.ok (.vDict res), stF) ∧
      getKey "lead_score" res =
        some (parseFailScore (stripMarkdown (envNone.gen st0.genCount))) ∧
      getKey "research" res =
        some (.vDict [("research_summary",
          .vStr (stripMarkdown (envNone.gen (st0.genCount + 1))))]) ∧
      getKey "follow_up" res =
        some (.vDict [("sequence", .vList (warmSeq.map seqEntryToVal)),
          ("first_message", .vDict [
            ("body", .vStr (stripMarkdown (envNone.gen (st0.genCount + 2)))),
            ("message_type", .vStr "email")])]) ∧
      getKey "documents" res =
        some (.vDict [("document_request", .vDict [("message_to_client",
          .vStr (stripMarkdown (envNone.gen (st0.genCount + 3))))])]) ∧
      getKey "scheduling" res = some .vNull ∧
      (∃ t1, getKey "session_summary" res = some (.vStr t1)) ∧
      (∃ t2, getKey "handoff_summary" res = some (.vStr t2)) ∧
      statusOf stF "s" = "completed" ∧
      agentsOf stF "s" = sess0.agents_used ++
        ["lead_scorer", "research", "handoff", "followup", "document_collector"] :=
  c1_amended envNone st0 "s" "Nevada" sess0 rfl (fun _ => rfl)

end LegalIntake
